import Mathlib

/-!
Shallow embedding of rapier's velocity ground-constraint solver kernel
(`src/dynamics/solver/velocity_ground_constraint_element.rs`).

The source is generic over a scalar type `N : SimdRealField`; we mirror this
with a linear ordered field `K` (this is the per-lane semantics: SIMD lanes
act componentwise and independently, so each lane behaves as one scalar).
The build-time dimension `DIM` is 2 or 3; both monomorphisations are
embedded, with suffix `2` and `3` on the names.  The square root that
`nalgebra`'s `simd_cap_magnitude` takes from the scalar trait is threaded
explicitly as a function argument `sqrtFn : K → K`.
-/

namespace Rapier

variable {K : Type} [LinearOrderedField K]

/-- A 2-dimensional vector (`na::Vector2<N>` / `Vector<N>` in 2D builds). -/
structure Vec2 (K : Type) where
  x : K
  y : K
  deriving DecidableEq, Inhabited

/-- A 3-dimensional vector (`na::Vector3<N>` / `Vector<N>` in 3D builds). -/
structure Vec3 (K : Type) where
  x : K
  y : K
  z : K
  deriving DecidableEq, Inhabited

/-- Dot product of 2-vectors (`Vector::dot`). -/
def Vec2.dot (a b : Vec2 K) : K :=
  a.x * b.x + a.y * b.y

/-- Componentwise sum of 2-vectors. -/
def Vec2.add (a b : Vec2 K) : Vec2 K :=
  ⟨a.x + b.x, a.y + b.y⟩

/-- Scalar multiple of a 2-vector (`v * k` in the source). -/
def Vec2.smul (k : K) (v : Vec2 K) : Vec2 K :=
  ⟨k * v.x, k * v.y⟩

/-- Squared Euclidean norm of a 2-vector (`norm_squared`). -/
def Vec2.normSq (v : Vec2 K) : K :=
  v.x * v.x + v.y * v.y

/-- Dot product of 3-vectors (`Vector::dot`; also `gdot` on 3D angular
vectors, modelled from the spec: `crate::utils::WDot` is outside this
fragment, and in 3D the angular Jacobian term maps by the ordinary dot
product). -/
def Vec3.dot (a b : Vec3 K) : K :=
  a.x * b.x + a.y * b.y + a.z * b.z

/-- Componentwise sum of 3-vectors. -/
def Vec3.add (a b : Vec3 K) : Vec3 K :=
  ⟨a.x + b.x, a.y + b.y, a.z + b.z⟩

/-- Scalar multiple of a 3-vector. -/
def Vec3.smul (k : K) (v : Vec3 K) : Vec3 K :=
  ⟨k * v.x, k * v.y, k * v.z⟩

/-- Cross product of 3-vectors (`Vector::cross`). -/
def Vec3.cross (a b : Vec3 K) : Vec3 K :=
  ⟨a.y * b.z - a.z * b.y, a.z * b.x - a.x * b.z, a.x * b.y - a.y * b.x⟩

/-- Modelled from the spec: `crate::utils::WBasis::orthonormal_vector` (the
file is outside this fragment) — "in 2D from a single orthonormal-complement
vector of the normal": the counterclockwise perpendicular of a 2-vector. -/
def Vec2.orthonormal_vector (v : Vec2 K) : Vec2 K :=
  ⟨-v.y, v.x⟩

/-- Modelled from the spec: `super::DeltaVel` (defined outside this fragment)
— the shared velocity accumulator, "linear and angular velocity-correction of
the dynamic body", 2D build (angular quantities are scalars in 2D). -/
structure DeltaVel2 (K : Type) where
  linear : Vec2 K
  angular : K
  deriving DecidableEq, Inhabited

/-- Modelled from the spec: `super::DeltaVel`, 3D build (angular quantities
are 3-vectors in 3D). -/
structure DeltaVel3 (K : Type) where
  linear : Vec3 K
  angular : Vec3 K
  deriving DecidableEq, Inhabited

/-- `simba`'s `simd_max` on one lane: the larger of two scalars. -/
def simdMax (a b : K) : K :=
  max a b

/-- `simba`'s `simd_clamp` on one lane: clamp into `[lo, hi]` as the
min/max composition. -/
def simdClamp (v lo hi : K) : K :=
  min (max v lo) hi

/-- `nalgebra`'s `simd_cap_magnitude` on a 2-vector: when the Euclidean norm
exceeds `limit`, rescale to norm `limit`, else keep the vector.  `sqrtFn` is
the scalar square root supplied by the numeric type. -/
def capMagnitude (sqrtFn : K → K) (v : Vec2 K) (limit : K) : Vec2 K :=
  if limit < sqrtFn v.normSq then Vec2.smul (limit / sqrtFn v.normSq) v else v

/-- `VelocityGroundConstraintNormalPart<N>`, 2D build (`AngVector<N> = N`). -/
structure VelocityGroundConstraintNormalPart2 (K : Type) where
  gcross2 : K
  rhs : K
  rhs_wo_bias : K
  impulse : K
  r : K
  deriving DecidableEq, Inhabited

/-- `VelocityGroundConstraintNormalPart<N>`, 3D build
(`AngVector<N> = Vector3<N>`). -/
structure VelocityGroundConstraintNormalPart3 (K : Type) where
  gcross2 : Vec3 K
  rhs : K
  rhs_wo_bias : K
  impulse : K
  r : K
  deriving DecidableEq, Inhabited

/-- `VelocityGroundConstraintTangentPart<N>`, 2D build: one tangent axis
(`DIM - 1 = 1`), scalar angular terms, `impulse : Vector1<N>`. -/
structure VelocityGroundConstraintTangentPart2 (K : Type) where
  gcross2 : K
  rhs : K
  impulse : K
  r : K
  deriving DecidableEq, Inhabited

/-- `VelocityGroundConstraintTangentPart<N>`, 3D build: two tangent axes
(`DIM - 1 = 2`); the arrays `gcross2`, `rhs`, `r` are spelled out with index
suffixes `_0`, `_1`, and `impulse : Vector2<N>` is a `Vec2`. -/
structure VelocityGroundConstraintTangentPart3 (K : Type) where
  gcross2_0 : Vec3 K
  gcross2_1 : Vec3 K
  rhs_0 : K
  rhs_1 : K
  impulse : Vec2 K
  r_0 : K
  r_1 : K
  deriving DecidableEq, Inhabited

/-- `VelocityGroundConstraintNormalPart::zero`, 2D build. -/
def VelocityGroundConstraintNormalPart2.zero : VelocityGroundConstraintNormalPart2 K :=
  { gcross2 := 0, rhs := 0, rhs_wo_bias := 0, impulse := 0, r := 0 }

/-- `VelocityGroundConstraintNormalPart::zero`, 3D build. -/
def VelocityGroundConstraintNormalPart3.zero : VelocityGroundConstraintNormalPart3 K :=
  { gcross2 := ⟨0, 0, 0⟩, rhs := 0, rhs_wo_bias := 0, impulse := 0, r := 0 }

/-- `VelocityGroundConstraintTangentPart::zero`, 2D build. -/
def VelocityGroundConstraintTangentPart2.zero : VelocityGroundConstraintTangentPart2 K :=
  { gcross2 := 0, rhs := 0, impulse := 0, r := 0 }

/-- `VelocityGroundConstraintTangentPart::zero`, 3D build. -/
def VelocityGroundConstraintTangentPart3.zero : VelocityGroundConstraintTangentPart3 K :=
  { gcross2_0 := ⟨0, 0, 0⟩, gcross2_1 := ⟨0, 0, 0⟩, rhs_0 := 0, rhs_1 := 0,
    impulse := ⟨0, 0⟩, r_0 := 0, r_1 := 0 }

/-- `VelocityGroundConstraintNormalPart::solve`, 2D build.  The source
mutates `self.impulse` and `*mj_lambda2` in place; the embedding returns the
updated pair `(self, mj_lambda2)`. -/
def VelocityGroundConstraintNormalPart2.solve
    (self : VelocityGroundConstraintNormalPart2 K) (dir1 : Vec2 K) (im2 : K)
    (mj_lambda2 : DeltaVel2 K) :
    VelocityGroundConstraintNormalPart2 K × DeltaVel2 K :=
  let dimpulse :=
    -(dir1.dot mj_lambda2.linear) + self.gcross2 * mj_lambda2.angular + self.rhs
  let new_impulse := simdMax (self.impulse - self.r * dimpulse) 0
  let dlambda := new_impulse - self.impulse
  ({ self with impulse := new_impulse },
   { linear := mj_lambda2.linear.add (Vec2.smul (-im2 * dlambda) dir1),
     angular := mj_lambda2.angular + self.gcross2 * dlambda })

/-- `VelocityGroundConstraintNormalPart::solve`, 3D build. -/
def VelocityGroundConstraintNormalPart3.solve
    (self : VelocityGroundConstraintNormalPart3 K) (dir1 : Vec3 K) (im2 : K)
    (mj_lambda2 : DeltaVel3 K) :
    VelocityGroundConstraintNormalPart3 K × DeltaVel3 K :=
  let dimpulse :=
    -(dir1.dot mj_lambda2.linear) + self.gcross2.dot mj_lambda2.angular + self.rhs
  let new_impulse := simdMax (self.impulse - self.r * dimpulse) 0
  let dlambda := new_impulse - self.impulse
  ({ self with impulse := new_impulse },
   { linear := mj_lambda2.linear.add (Vec3.smul (-im2 * dlambda) dir1),
     angular := mj_lambda2.angular.add (Vec3.smul dlambda self.gcross2) })

/-- `VelocityGroundConstraintTangentPart::solve`, 2D build (the
`cfg(feature = "dim2")` branch): one axis, box clamp into
`[-limit, limit]`. -/
def VelocityGroundConstraintTangentPart2.solve
    (self : VelocityGroundConstraintTangentPart2 K) (tangents1 : Vec2 K)
    (im2 limit : K) (mj_lambda2 : DeltaVel2 K) :
    VelocityGroundConstraintTangentPart2 K × DeltaVel2 K :=
  let dimpulse :=
    -(tangents1.dot mj_lambda2.linear) + self.gcross2 * mj_lambda2.angular + self.rhs
  let new_impulse := simdClamp (self.impulse - self.r * dimpulse) (-limit) limit
  let dlambda := new_impulse - self.impulse
  ({ self with impulse := new_impulse },
   { linear := mj_lambda2.linear.add (Vec2.smul (-im2 * dlambda) tangents1),
     angular := mj_lambda2.angular + self.gcross2 * dlambda })

/-- `VelocityGroundConstraintTangentPart::solve`, 3D build (the
`cfg(feature = "dim3")` branch): both axis violations against the current
accumulator, then a Euclidean magnitude cap of the candidate 2-vector. -/
def VelocityGroundConstraintTangentPart3.solve (sqrtFn : K → K)
    (self : VelocityGroundConstraintTangentPart3 K)
    (tangents1_0 tangents1_1 : Vec3 K) (im2 limit : K)
    (mj_lambda2 : DeltaVel3 K) :
    VelocityGroundConstraintTangentPart3 K × DeltaVel3 K :=
  let dimpulse_0 :=
    -(tangents1_0.dot mj_lambda2.linear) + self.gcross2_0.dot mj_lambda2.angular + self.rhs_0
  let dimpulse_1 :=
    -(tangents1_1.dot mj_lambda2.linear) + self.gcross2_1.dot mj_lambda2.angular + self.rhs_1
  let new_impulse : Vec2 K :=
    ⟨self.impulse.x - self.r_0 * dimpulse_0, self.impulse.y - self.r_1 * dimpulse_1⟩
  let new_impulse := capMagnitude sqrtFn new_impulse limit
  let dlambda : Vec2 K := ⟨new_impulse.x - self.impulse.x, new_impulse.y - self.impulse.y⟩
  ({ self with impulse := new_impulse },
   { linear := mj_lambda2.linear.add
       ((Vec3.smul (-im2 * dlambda.x) tangents1_0).add
        (Vec3.smul (-im2 * dlambda.y) tangents1_1)),
     angular := mj_lambda2.angular.add
       ((Vec3.smul dlambda.x self.gcross2_0).add
        (Vec3.smul dlambda.y self.gcross2_1)) })

/-- `VelocityGroundConstraintElement<N>`, 2D build. -/
structure VelocityGroundConstraintElement2 (K : Type) where
  normal_part : VelocityGroundConstraintNormalPart2 K
  tangent_part : VelocityGroundConstraintTangentPart2 K
  deriving DecidableEq, Inhabited

/-- `VelocityGroundConstraintElement<N>`, 3D build. -/
structure VelocityGroundConstraintElement3 (K : Type) where
  normal_part : VelocityGroundConstraintNormalPart3 K
  tangent_part : VelocityGroundConstraintTangentPart3 K
  deriving DecidableEq, Inhabited

/-- `VelocityGroundConstraintElement::zero`, 2D build. -/
def VelocityGroundConstraintElement2.zero : VelocityGroundConstraintElement2 K :=
  { normal_part := VelocityGroundConstraintNormalPart2.zero,
    tangent_part := VelocityGroundConstraintTangentPart2.zero }

/-- `VelocityGroundConstraintElement::zero`, 3D build. -/
def VelocityGroundConstraintElement3.zero : VelocityGroundConstraintElement3 K :=
  { normal_part := VelocityGroundConstraintNormalPart3.zero,
    tangent_part := VelocityGroundConstraintTangentPart3.zero }

/-- The `solve_normal` loop of `solve_group`, 2D build: solve every element's
normal part in array order, each update of the shared accumulator visible to
the next element (`for element in elements.iter_mut()`). -/
def normalSweep2 (dir1 : Vec2 K) (im2 : K) :
    List (VelocityGroundConstraintElement2 K) → DeltaVel2 K →
    List (VelocityGroundConstraintElement2 K) × DeltaVel2 K
  | [], mj_lambda2 => ([], mj_lambda2)
  | element :: rest, mj_lambda2 =>
    let p := element.normal_part.solve dir1 im2 mj_lambda2
    let q := normalSweep2 dir1 im2 rest p.2
    ({ element with normal_part := p.1 } :: q.1, q.2)

/-- The `solve_friction` loop of `solve_group`, 2D build: per element the
cone radius is recomputed as `limit * element.normal_part.impulse`, then the
tangent part is solved against the shared accumulator. -/
def frictionSweep2 (tangents1 : Vec2 K) (im2 limit : K) :
    List (VelocityGroundConstraintElement2 K) → DeltaVel2 K →
    List (VelocityGroundConstraintElement2 K) × DeltaVel2 K
  | [], mj_lambda2 => ([], mj_lambda2)
  | element :: rest, mj_lambda2 =>
    let p := element.tangent_part.solve tangents1 im2
      (limit * element.normal_part.impulse) mj_lambda2
    let q := frictionSweep2 tangents1 im2 limit rest p.2
    ({ element with tangent_part := p.1 } :: q.1, q.2)

/-- `VelocityGroundConstraintElement::solve_group`, 2D build: the
`solve_normal` sweep, then — if `solve_friction` — the tangent basis
`[dir1.orthonormal_vector()]` and the friction sweep. -/
def VelocityGroundConstraintElement2.solve_group
    (elements : List (VelocityGroundConstraintElement2 K)) (dir1 : Vec2 K)
    (im2 limit : K) (mj_lambda2 : DeltaVel2 K)
    (solve_normal solve_friction : Bool) :
    List (VelocityGroundConstraintElement2 K) × DeltaVel2 K :=
  let p :=
    if solve_normal then normalSweep2 dir1 im2 elements mj_lambda2
    else (elements, mj_lambda2)
  if solve_friction then
    let tangents1 := dir1.orthonormal_vector
    frictionSweep2 tangents1 im2 limit p.1 p.2
  else p

/-- The `solve_normal` loop of `solve_group`, 3D build. -/
def normalSweep3 (dir1 : Vec3 K) (im2 : K) :
    List (VelocityGroundConstraintElement3 K) → DeltaVel3 K →
    List (VelocityGroundConstraintElement3 K) × DeltaVel3 K
  | [], mj_lambda2 => ([], mj_lambda2)
  | element :: rest, mj_lambda2 =>
    let p := element.normal_part.solve dir1 im2 mj_lambda2
    let q := normalSweep3 dir1 im2 rest p.2
    ({ element with normal_part := p.1 } :: q.1, q.2)

/-- The `solve_friction` loop of `solve_group`, 3D build. -/
def frictionSweep3 (sqrtFn : K → K) (tangents1_0 tangents1_1 : Vec3 K)
    (im2 limit : K) :
    List (VelocityGroundConstraintElement3 K) → DeltaVel3 K →
    List (VelocityGroundConstraintElement3 K) × DeltaVel3 K
  | [], mj_lambda2 => ([], mj_lambda2)
  | element :: rest, mj_lambda2 =>
    let p := VelocityGroundConstraintTangentPart3.solve sqrtFn
      element.tangent_part tangents1_0 tangents1_1 im2
      (limit * element.normal_part.impulse) mj_lambda2
    let q := frictionSweep3 sqrtFn tangents1_0 tangents1_1 im2 limit rest p.2
    ({ element with tangent_part := p.1 } :: q.1, q.2)

/-- `VelocityGroundConstraintElement::solve_group`, 3D build: the
`solve_normal` sweep, then — if `solve_friction` — the tangent basis
`[tangent1, dir1.cross(tangent1)]` and the friction sweep. -/
def VelocityGroundConstraintElement3.solve_group (sqrtFn : K → K)
    (elements : List (VelocityGroundConstraintElement3 K)) (dir1 tangent1 : Vec3 K)
    (im2 limit : K) (mj_lambda2 : DeltaVel3 K)
    (solve_normal solve_friction : Bool) :
    List (VelocityGroundConstraintElement3 K) × DeltaVel3 K :=
  let p :=
    if solve_normal then normalSweep3 dir1 im2 elements mj_lambda2
    else (elements, mj_lambda2)
  if solve_friction then
    let tangents1_0 := tangent1
    let tangents1_1 := dir1.cross tangent1
    frictionSweep3 sqrtFn tangents1_0 tangents1_1 im2 limit p.1 p.2
  else p

/-! ## Spec-side models

The following definitions are written from the spec's words (§4.1, §4.2), not
from the source; the refinement theorems below compare them with the
source-translated operations above. -/

/-- Spec-side model of the normal solve (§4.1): the violation rate
`Δ = -direction·linear_velocity + gcross2·angular_velocity + rhs`, the
projected step `new_impulse = max(0, impulse - r·Δ)`, the committed impulse,
and the velocity correction `linear += direction·(-inverse_mass·dλ)`,
`angular += gcross2·dλ` with `dλ = new_impulse - impulse`.  2D build. -/
def normalSolveSpecModel2 (self : VelocityGroundConstraintNormalPart2 K)
    (direction : Vec2 K) (inverse_mass : K) (acc : DeltaVel2 K) :
    VelocityGroundConstraintNormalPart2 K × DeltaVel2 K :=
  let violation := -(direction.dot acc.linear) + self.gcross2 * acc.angular + self.rhs
  let new_impulse := max 0 (self.impulse - self.r * violation)
  let dl := new_impulse - self.impulse
  ({ self with impulse := new_impulse },
   { linear := acc.linear.add (Vec2.smul (-inverse_mass * dl) direction),
     angular := acc.angular + self.gcross2 * dl })

/-- Spec-side model of the normal solve (§4.1), 3D build. -/
def normalSolveSpecModel3 (self : VelocityGroundConstraintNormalPart3 K)
    (direction : Vec3 K) (inverse_mass : K) (acc : DeltaVel3 K) :
    VelocityGroundConstraintNormalPart3 K × DeltaVel3 K :=
  let violation := -(direction.dot acc.linear) + self.gcross2.dot acc.angular + self.rhs
  let new_impulse := max 0 (self.impulse - self.r * violation)
  let dl := new_impulse - self.impulse
  ({ self with impulse := new_impulse },
   { linear := acc.linear.add (Vec3.smul (-inverse_mass * dl) direction),
     angular := acc.angular.add (Vec3.smul dl self.gcross2) })

/-- Spec-side model of the tangent solve (§4.2), 2D build: one axis,
`new_impulse = clamp(impulse - r·Δ, -limit, +limit)`, the clamp spelled as
the lower bound of the upper-bounded value (meaningful for a nonempty
interval, i.e. `0 ≤ limit`). -/
def tangentSolveSpecModel2 (self : VelocityGroundConstraintTangentPart2 K)
    (tangent : Vec2 K) (inverse_mass limit : K) (acc : DeltaVel2 K) :
    VelocityGroundConstraintTangentPart2 K × DeltaVel2 K :=
  let violation := -(tangent.dot acc.linear) + self.gcross2 * acc.angular + self.rhs
  let new_impulse := max (-limit) (min (self.impulse - self.r * violation) limit)
  let dl := new_impulse - self.impulse
  ({ self with impulse := new_impulse },
   { linear := acc.linear.add (Vec2.smul (-inverse_mass * dl) tangent),
     angular := acc.angular + self.gcross2 * dl })

/-- Spec-side model of the Euclidean magnitude cap (§4.2): keep the vector
when its norm is within `limit`, else rescale it to norm `limit`. -/
def capMagnitudeSpecModel (sqrtFn : K → K) (v : Vec2 K) (limit : K) : Vec2 K :=
  if sqrtFn v.normSq ≤ limit then v else Vec2.smul (limit / sqrtFn v.normSq) v

/-- Spec-side model of the tangent solve (§4.2), 3D build: both axis
violations computed independently against the current accumulator, the
2-vector candidate impulse, the Euclidean magnitude cap, and the velocity
correction summed over both tangent axes. -/
def tangentSolveSpecModel3 (sqrtFn : K → K)
    (self : VelocityGroundConstraintTangentPart3 K)
    (tangent0 tangent1 : Vec3 K) (inverse_mass limit : K) (acc : DeltaVel3 K) :
    VelocityGroundConstraintTangentPart3 K × DeltaVel3 K :=
  let violation0 := -(tangent0.dot acc.linear) + self.gcross2_0.dot acc.angular + self.rhs_0
  let violation1 := -(tangent1.dot acc.linear) + self.gcross2_1.dot acc.angular + self.rhs_1
  let candidate : Vec2 K :=
    ⟨self.impulse.x - self.r_0 * violation0, self.impulse.y - self.r_1 * violation1⟩
  let new_impulse := capMagnitudeSpecModel sqrtFn candidate limit
  let dl : Vec2 K := ⟨new_impulse.x - self.impulse.x, new_impulse.y - self.impulse.y⟩
  ({ self with impulse := new_impulse },
   { linear := acc.linear.add
       ((Vec3.smul (-inverse_mass * dl.x) tangent0).add
        (Vec3.smul (-inverse_mass * dl.y) tangent1)),
     angular := acc.angular.add
       ((Vec3.smul dl.x self.gcross2_0).add (Vec3.smul dl.y self.gcross2_1)) })

/-- An independent per-axis box clamp of a 2-vector — what the 3D friction
cap is NOT (it is a disk clamp); used to separate the two. -/
def perAxisBoxClamp (v : Vec2 K) (limit : K) : Vec2 K :=
  ⟨simdClamp v.x (-limit) limit, simdClamp v.y (-limit) limit⟩

/-! ## Call sequences -/

/-- The arguments of one normal-part solve call, 2D build. -/
structure NormalCall2 (K : Type) where
  dir1 : Vec2 K
  im2 : K
  deriving DecidableEq, Inhabited

/-- The arguments of one normal-part solve call, 3D build. -/
structure NormalCall3 (K : Type) where
  dir1 : Vec3 K
  im2 : K
  deriving DecidableEq, Inhabited

/-- A sequence of normal-part solve calls, 2D build: each call reads the
state and accumulator the previous call left. -/
def normalSolveRun2 :
    List (NormalCall2 K) →
    VelocityGroundConstraintNormalPart2 K × DeltaVel2 K →
    VelocityGroundConstraintNormalPart2 K × DeltaVel2 K
  | [], s => s
  | c :: cs, s => normalSolveRun2 cs (s.1.solve c.dir1 c.im2 s.2)

/-- A sequence of normal-part solve calls, 3D build. -/
def normalSolveRun3 :
    List (NormalCall3 K) →
    VelocityGroundConstraintNormalPart3 K × DeltaVel3 K →
    VelocityGroundConstraintNormalPart3 K × DeltaVel3 K
  | [], s => s
  | c :: cs, s => normalSolveRun3 cs (s.1.solve c.dir1 c.im2 s.2)

/-! ## Helper lemmas -/

/-- One 2D normal solve leaves a nonnegative impulse, whatever the inputs. -/
theorem normal2_solve_impulse_nonneg (self : VelocityGroundConstraintNormalPart2 K)
    (dir1 : Vec2 K) (im2 : K) (mj_lambda2 : DeltaVel2 K) :
    0 ≤ (self.solve dir1 im2 mj_lambda2).1.impulse := by
  simp only [VelocityGroundConstraintNormalPart2.solve, simdMax]
  exact le_max_right _ _

/-- One 3D normal solve leaves a nonnegative impulse, whatever the inputs. -/
theorem normal3_solve_impulse_nonneg (self : VelocityGroundConstraintNormalPart3 K)
    (dir1 : Vec3 K) (im2 : K) (mj_lambda2 : DeltaVel3 K) :
    0 ≤ (self.solve dir1 im2 mj_lambda2).1.impulse := by
  simp only [VelocityGroundConstraintNormalPart3.solve, simdMax]
  exact le_max_right _ _

/-- Claim C1: the 2D/3D normal-part `solve` computes exactly the spec's
projected Gauss-Seidel step: the violation rate from the current accumulator,
the clamped impulse update, the commit, and the accumulator update. -/
theorem normal_solve_refines_spec :
    (∀ (self : VelocityGroundConstraintNormalPart2 K) (direction : Vec2 K)
       (inverse_mass : K) (acc : DeltaVel2 K),
       self.solve direction inverse_mass acc =
         normalSolveSpecModel2 self direction inverse_mass acc) ∧
    (∀ (self : VelocityGroundConstraintNormalPart3 K) (direction : Vec3 K)
       (inverse_mass : K) (acc : DeltaVel3 K),
       self.solve direction inverse_mass acc =
         normalSolveSpecModel3 self direction inverse_mass acc) := by
  constructor
  · intro self direction inverse_mass acc
    simp only [VelocityGroundConstraintNormalPart2.solve, normalSolveSpecModel2,
      simdMax, max_comm]
  · intro self direction inverse_mass acc
    simp only [VelocityGroundConstraintNormalPart3.solve, normalSolveSpecModel3,
      simdMax, max_comm]

/-- Claim C2: after every call in every sequence of normal-part solve calls
the accumulated normal impulse is nonnegative, whatever `rhs`, the other
fields and the arguments are (2D and 3D builds; a state reached "after a
call" is the run of a nonempty call list from the state before it). -/
theorem normal_impulse_nonneg_after_every_call :
    (∀ (calls : List (NormalCall2 K))
       (s : VelocityGroundConstraintNormalPart2 K × DeltaVel2 K),
       calls ≠ [] → 0 ≤ (normalSolveRun2 calls s).1.impulse) ∧
    (∀ (calls : List (NormalCall3 K))
       (s : VelocityGroundConstraintNormalPart3 K × DeltaVel3 K),
       calls ≠ [] → 0 ≤ (normalSolveRun3 calls s).1.impulse) := by
  constructor
  · intro calls
    induction calls with
    | nil => intro s h; exact absurd rfl h
    | cons c cs ih =>
      intro s _
      cases cs with
      | nil => exact normal2_solve_impulse_nonneg s.1 c.dir1 c.im2 s.2
      | cons c2 cs2 => exact ih _ (List.cons_ne_nil _ _)
  · intro calls
    induction calls with
    | nil => intro s h; exact absurd rfl h
    | cons c cs ih =>
      intro s _
      cases cs with
      | nil => exact normal3_solve_impulse_nonneg s.1 c.dir1 c.im2 s.2
      | cons c2 cs2 => exact ih _ (List.cons_ne_nil _ _)

/-- Claim C2 witness: the 2D conjunct at a concrete one-call sequence. -/
theorem normal_impulse_nonneg_after_every_call_witness :
    0 ≤ (normalSolveRun2 [⟨⟨0, 1⟩, 1⟩]
      ((VelocityGroundConstraintNormalPart2.zero, ⟨⟨0, 0⟩, 0⟩) :
        VelocityGroundConstraintNormalPart2 ℚ × DeltaVel2 ℚ)).1.impulse :=
  normal_impulse_nonneg_after_every_call.1 _ _ (List.cons_ne_nil _ _)

/-- For a nonempty interval, the min/max composition of `simd_clamp` is the
spec's clamp. -/
theorem simdClamp_eq_spec (x lo hi : K) (h : lo ≤ hi) :
    simdClamp x lo hi = max lo (min x hi) := by
  simp only [simdClamp, min_def, max_def]
  split_ifs <;> first | rfl | linarith

/-- The magnitude cap agrees with its spec-side model: the two spell the
branch condition complementarily. -/
theorem capMagnitude_eq_spec (sqrtFn : K → K) (v : Vec2 K) (limit : K) :
    capMagnitude sqrtFn v limit = capMagnitudeSpecModel sqrtFn v limit := by
  unfold capMagnitude capMagnitudeSpecModel
  rcases lt_or_le limit (sqrtFn v.normSq) with h | h
  · rw [if_pos h, if_neg (not_le.mpr h)]
  · rw [if_neg (not_lt.mpr h), if_pos h]

/-- Claim C4: the tangent-part `solve` is a box clamp of the single-axis
candidate in 2D (stated for a nonempty clamp interval `0 ≤ limit`), and in 3D
computes both axis violations independently against the current accumulator
and caps the candidate 2-vector's Euclidean magnitude — a disk clamp that
differs from an independent per-axis clamp. -/
theorem tangent_solve_refines_spec :
    (∀ (self : VelocityGroundConstraintTangentPart2 K) (tangent : Vec2 K)
       (im2 limit : K) (acc : DeltaVel2 K), 0 ≤ limit →
       self.solve tangent im2 limit acc =
         tangentSolveSpecModel2 self tangent im2 limit acc) ∧
    (∀ (sqrtFn : K → K) (self : VelocityGroundConstraintTangentPart3 K)
       (tangent0 tangent1 : Vec3 K) (im2 limit : K) (acc : DeltaVel3 K),
       VelocityGroundConstraintTangentPart3.solve sqrtFn self tangent0 tangent1
           im2 limit acc =
         tangentSolveSpecModel3 sqrtFn self tangent0 tangent1 im2 limit acc) ∧
    (∀ sqrtFn : K → K, sqrtFn (Vec2.normSq ⟨3, 4⟩) = 5 →
       capMagnitude sqrtFn ⟨3, 4⟩ 4 ≠ perAxisBoxClamp ⟨3, 4⟩ 4) := by
  refine ⟨?_, ?_, ?_⟩
  · intro self tangent im2 limit acc hl
    simp only [VelocityGroundConstraintTangentPart2.solve, tangentSolveSpecModel2,
      simdClamp_eq_spec _ _ _ (neg_le_self hl)]
  · intro sqrtFn self tangent0 tangent1 im2 limit acc
    simp only [VelocityGroundConstraintTangentPart3.solve, tangentSolveSpecModel3,
      capMagnitude_eq_spec]
  · intro sqrtFn hs
    unfold capMagnitude perAxisBoxClamp simdClamp
    rw [hs, if_pos (by norm_num : (4 : K) < 5)]
    intro hEq
    have hx := congrArg Vec2.x hEq
    simp only [Vec2.smul] at hx
    rw [min_def, max_def] at hx
    split_ifs at hx <;> nlinarith [hx]

/-- Claim C4 witness: the 2D conjunct at a concrete call with warm-started
impulse and unit cone radius. -/
theorem tangent_solve_refines_spec_witness :
    VelocityGroundConstraintTangentPart2.solve
      ({ gcross2 := 0, rhs := 2, impulse := 0, r := 1 } :
        VelocityGroundConstraintTangentPart2 ℚ) ⟨1, 0⟩ 1 1 ⟨⟨0, 0⟩, 0⟩ =
      tangentSolveSpecModel2
        ({ gcross2 := 0, rhs := 2, impulse := 0, r := 1 } :
          VelocityGroundConstraintTangentPart2 ℚ) ⟨1, 0⟩ 1 1 ⟨⟨0, 0⟩, 0⟩ :=
  tangent_solve_refines_spec.1 _ _ _ _ _ (by norm_num)

/-- Claim C7: the spec's concrete 2D scenario.  Normal: direction `(0,1)`,
`inverse_mass = 1`, `gcross2 = 0`, `rhs = -1`, `r = 1`, zero impulse and zero
accumulator: one normal solve yields impulse `1` and linear correction
`(0,-1)`.  Then a tangent solve with `limit = 1/2`, tangential `rhs = 2`,
`r = 1` on the resulting accumulator yields impulse exactly `-1/2`, clamped
at the cone boundary, not `-2`. -/
theorem concrete_scenario_2d :
    (({ gcross2 := 0, rhs := -1, rhs_wo_bias := 0, impulse := 0, r := 1 } :
        VelocityGroundConstraintNormalPart2 ℚ).solve ⟨0, 1⟩ 1 ⟨⟨0, 0⟩, 0⟩).1.impulse = 1 ∧
    (({ gcross2 := 0, rhs := -1, rhs_wo_bias := 0, impulse := 0, r := 1 } :
        VelocityGroundConstraintNormalPart2 ℚ).solve ⟨0, 1⟩ 1 ⟨⟨0, 0⟩, 0⟩).2.linear =
      ⟨0, -1⟩ ∧
    (({ gcross2 := 0, rhs := 2, impulse := 0, r := 1 } :
        VelocityGroundConstraintTangentPart2 ℚ).solve (Vec2.orthonormal_vector ⟨0, 1⟩) 1 (1 / 2)
        (({ gcross2 := 0, rhs := -1, rhs_wo_bias := 0, impulse := 0, r := 1 } :
            VelocityGroundConstraintNormalPart2 ℚ).solve ⟨0, 1⟩ 1 ⟨⟨0, 0⟩, 0⟩).2).1.impulse =
      -(1 / 2) ∧
    (({ gcross2 := 0, rhs := 2, impulse := 0, r := 1 } :
        VelocityGroundConstraintTangentPart2 ℚ).solve (Vec2.orthonormal_vector ⟨0, 1⟩) 1 (1 / 2)
        (({ gcross2 := 0, rhs := -1, rhs_wo_bias := 0, impulse := 0, r := 1 } :
            VelocityGroundConstraintNormalPart2 ℚ).solve ⟨0, 1⟩ 1 ⟨⟨0, 0⟩, 0⟩).2).1.impulse ≠
      -2 := by
  refine ⟨?_, ?_, ?_, ?_⟩ <;>
    norm_num [VelocityGroundConstraintNormalPart2.solve,
      VelocityGroundConstraintTangentPart2.solve, Vec2.dot, Vec2.add, Vec2.smul,
      Vec2.orthonormal_vector, simdMax, simdClamp, max_def, min_def, Vec2.mk.injEq]

/-- The box clamp stays inside a nonempty symmetric interval. -/
theorem abs_simdClamp_le (x limit : K) (h : 0 ≤ limit) :
    |simdClamp x (-limit) limit| ≤ limit := by
  rw [abs_le]
  exact ⟨le_min (le_max_right x (-limit)) (neg_le_self h), min_le_right _ _⟩

/-- A squared norm is nonnegative. -/
theorem normSq_nonneg (v : Vec2 K) : 0 ≤ v.normSq :=
  add_nonneg (mul_self_nonneg v.x) (mul_self_nonneg v.y)

/-- Squared norm of a scalar multiple. -/
theorem normSq_smul (k : K) (v : Vec2 K) :
    (Vec2.smul k v).normSq = k * k * v.normSq := by
  simp only [Vec2.smul, Vec2.normSq]; ring

/-- What the source's scalar trait guarantees of its square root on the
nonnegative scalars. -/
def SqrtSpec (sqrtFn : K → K) : Prop :=
  ∀ x : K, 0 ≤ x → 0 ≤ sqrtFn x ∧ sqrtFn x * sqrtFn x = x

/-- A `SqrtSpec` square root sends `l * l` back to `l` for `0 ≤ l`. -/
theorem SqrtSpec.sqrt_mul_self {f : K → K} (hf : SqrtSpec f) (l : K) (hl : 0 ≤ l) :
    f (l * l) = l := by
  obtain ⟨h1, h2⟩ := hf (l * l) (mul_self_nonneg l)
  rcases mul_self_eq_mul_self_iff.mp h2 with h | h
  · exact h
  · have hl0 : l = 0 := le_antisymm (by linarith) hl
    rw [hl0] at h ⊢
    simpa using h

/-- The capped vector's norm is within a nonnegative `limit`. -/
theorem capMagnitude_normSq_le (f : K → K) (hf : SqrtSpec f) (v : Vec2 K)
    (limit : K) (hl : 0 ≤ limit) :
    f (capMagnitude f v limit).normSq ≤ limit := by
  unfold capMagnitude
  split_ifs with h
  · set n := f v.normSq with hn
    have hsq : n * n = v.normSq := (hf _ (normSq_nonneg v)).2
    have hpos : 0 < n := lt_of_le_of_lt hl h
    have hne : n ≠ 0 := ne_of_gt hpos
    have hval : (Vec2.smul (limit / n) v).normSq = limit * limit := by
      rw [normSq_smul, ← hsq]
      field_simp
    rw [hval, hf.sqrt_mul_self limit hl]
  · exact not_lt.mp h

/-- Claim C10: one tangent solve with cone radius `limit ≥ 0` leaves the
friction impulse inside the cone whatever the pre-state impulse was — in
particular it restores the bound after a warm start outside the cone — and
for `limit < 0` the bound never holds (a norm is nonnegative). -/
theorem tangent_solve_restores_cone :
    (∀ (self : VelocityGroundConstraintTangentPart2 K) (tangent : Vec2 K)
       (im2 limit : K) (acc : DeltaVel2 K), 0 ≤ limit →
       |(self.solve tangent im2 limit acc).1.impulse| ≤ limit) ∧
    (∀ (f : K → K), SqrtSpec f →
       ∀ (self : VelocityGroundConstraintTangentPart3 K) (tangent0 tangent1 : Vec3 K)
         (im2 limit : K) (acc : DeltaVel3 K), 0 ≤ limit →
         f (VelocityGroundConstraintTangentPart3.solve f self tangent0 tangent1
             im2 limit acc).1.impulse.normSq ≤ limit) ∧
    (∀ (self : VelocityGroundConstraintTangentPart2 K) (tangent : Vec2 K)
       (im2 limit : K) (acc : DeltaVel2 K), limit < 0 →
       ¬ |(self.solve tangent im2 limit acc).1.impulse| ≤ limit) ∧
    (∀ (f : K → K), SqrtSpec f →
       ∀ (self : VelocityGroundConstraintTangentPart3 K) (tangent0 tangent1 : Vec3 K)
         (im2 limit : K) (acc : DeltaVel3 K), limit < 0 →
         ¬ f (VelocityGroundConstraintTangentPart3.solve f self tangent0 tangent1
             im2 limit acc).1.impulse.normSq ≤ limit) := by
  refine ⟨?_, ?_, ?_, ?_⟩
  · intro self tangent im2 limit acc hl
    simp only [VelocityGroundConstraintTangentPart2.solve]
    exact abs_simdClamp_le _ _ hl
  · intro f hf self tangent0 tangent1 im2 limit acc hl
    simp only [VelocityGroundConstraintTangentPart3.solve]
    exact capMagnitude_normSq_le f hf _ limit hl
  · intro self tangent im2 limit acc hl habs
    exact absurd (le_trans (abs_nonneg _) habs) (not_le.mpr hl)
  · intro f hf self tangent0 tangent1 im2 limit acc hl habs
    exact absurd (le_trans (hf _ (normSq_nonneg _)).1 habs) (not_le.mpr hl)

/-- Claim C10 witness: the 2D conjunct at a warm-started impulse `7` far
outside a cone of radius `2`; one call restores the bound. -/
theorem tangent_solve_restores_cone_witness :
    |(VelocityGroundConstraintTangentPart2.solve
      ({ gcross2 := 0, rhs := 0, impulse := 7, r := 0 } :
        VelocityGroundConstraintTangentPart2 ℚ) ⟨1, 0⟩ 1 2 ⟨⟨0, 0⟩, 0⟩).1.impulse| ≤ 2 :=
  tangent_solve_restores_cone.1 _ _ _ _ _ (by norm_num)

/-- Claim C6: `solve_group` is a sequential fold.  Conjuncts: for each build,
(a) an empty group is untouched; (b) with `solve_normal` the head element's
normal solve runs first and the rest of the group is solved against the
accumulator it left (Gauss-Seidel order, not a parallel update); (c) with
`solve_friction` likewise for tangent solves, against the basis
`[dir1.orthonormal_vector()]` in 2D and `[tangent1, dir1 × tangent1]` in 3D;
(d) a general call stages the whole normal phase before the friction
phase. -/
theorem solve_group_gauss_seidel_order :
    (∀ (dir1 : Vec2 K) (im2 limit : K) (mj : DeltaVel2 K) (sn sf : Bool),
       VelocityGroundConstraintElement2.solve_group [] dir1 im2 limit mj sn sf =
         ([], mj)) ∧
    (∀ (e : VelocityGroundConstraintElement2 K) (es : List (VelocityGroundConstraintElement2 K))
       (dir1 : Vec2 K) (im2 limit : K) (mj : DeltaVel2 K),
       VelocityGroundConstraintElement2.solve_group (e :: es) dir1 im2 limit mj true false =
         (let p := e.normal_part.solve dir1 im2 mj
          let q := VelocityGroundConstraintElement2.solve_group es dir1 im2 limit p.2 true false
          ({ e with normal_part := p.1 } :: q.1, q.2))) ∧
    (∀ (e : VelocityGroundConstraintElement2 K) (es : List (VelocityGroundConstraintElement2 K))
       (dir1 : Vec2 K) (im2 limit : K) (mj : DeltaVel2 K),
       VelocityGroundConstraintElement2.solve_group (e :: es) dir1 im2 limit mj false true =
         (let p := e.tangent_part.solve dir1.orthonormal_vector im2
            (limit * e.normal_part.impulse) mj
          let q := VelocityGroundConstraintElement2.solve_group es dir1 im2 limit p.2 false true
          ({ e with tangent_part := p.1 } :: q.1, q.2))) ∧
    (∀ (es : List (VelocityGroundConstraintElement2 K)) (dir1 : Vec2 K) (im2 limit : K)
       (mj : DeltaVel2 K) (sn sf : Bool),
       VelocityGroundConstraintElement2.solve_group es dir1 im2 limit mj sn sf =
         (let p :=
            if sn then VelocityGroundConstraintElement2.solve_group es dir1 im2 limit mj true false
            else (es, mj)
          if sf then VelocityGroundConstraintElement2.solve_group p.1 dir1 im2 limit p.2 false true
          else p)) ∧
    (∀ (sqrtFn : K → K) (dir1 tangent1 : Vec3 K) (im2 limit : K) (mj : DeltaVel3 K) (sn sf : Bool),
       VelocityGroundConstraintElement3.solve_group sqrtFn [] dir1 tangent1 im2 limit mj sn sf =
         ([], mj)) ∧
    (∀ (sqrtFn : K → K) (e : VelocityGroundConstraintElement3 K)
       (es : List (VelocityGroundConstraintElement3 K)) (dir1 tangent1 : Vec3 K)
       (im2 limit : K) (mj : DeltaVel3 K),
       VelocityGroundConstraintElement3.solve_group sqrtFn (e :: es) dir1 tangent1 im2 limit mj
           true false =
         (let p := e.normal_part.solve dir1 im2 mj
          let q := VelocityGroundConstraintElement3.solve_group sqrtFn es dir1 tangent1 im2 limit
            p.2 true false
          ({ e with normal_part := p.1 } :: q.1, q.2))) ∧
    (∀ (sqrtFn : K → K) (e : VelocityGroundConstraintElement3 K)
       (es : List (VelocityGroundConstraintElement3 K)) (dir1 tangent1 : Vec3 K)
       (im2 limit : K) (mj : DeltaVel3 K),
       VelocityGroundConstraintElement3.solve_group sqrtFn (e :: es) dir1 tangent1 im2 limit mj
           false true =
         (let p := VelocityGroundConstraintTangentPart3.solve sqrtFn e.tangent_part tangent1
            (dir1.cross tangent1) im2 (limit * e.normal_part.impulse) mj
          let q := VelocityGroundConstraintElement3.solve_group sqrtFn es dir1 tangent1 im2 limit
            p.2 false true
          ({ e with tangent_part := p.1 } :: q.1, q.2))) ∧
    (∀ (sqrtFn : K → K) (es : List (VelocityGroundConstraintElement3 K)) (dir1 tangent1 : Vec3 K)
       (im2 limit : K) (mj : DeltaVel3 K) (sn sf : Bool),
       VelocityGroundConstraintElement3.solve_group sqrtFn es dir1 tangent1 im2 limit mj sn sf =
         (let p :=
            if sn then
              VelocityGroundConstraintElement3.solve_group sqrtFn es dir1 tangent1 im2 limit mj
                true false
            else (es, mj)
          if sf then
            VelocityGroundConstraintElement3.solve_group sqrtFn p.1 dir1 tangent1 im2 limit p.2
              false true
          else p)) := by
  refine ⟨?_, ?_, ?_, ?_, ?_, ?_, ?_, ?_⟩
  · intro dir1 im2 limit mj sn sf
    cases sn <;> cases sf <;> rfl
  · intro e es dir1 im2 limit mj
    rfl
  · intro e es dir1 im2 limit mj
    rfl
  · intro es dir1 im2 limit mj sn sf
    cases sn <;> cases sf <;> rfl
  · intro sqrtFn dir1 tangent1 im2 limit mj sn sf
    cases sn <;> cases sf <;> rfl
  · intro sqrtFn e es dir1 tangent1 im2 limit mj
    rfl
  · intro sqrtFn e es dir1 tangent1 im2 limit mj
    rfl
  · intro sqrtFn es dir1 tangent1 im2 limit mj sn sf
    cases sn <;> cases sf <;> rfl

/-- The friction sweep never touches the normal parts (2D build). -/
theorem frictionSweep2_map_normal (tangents1 : Vec2 K) (im2 limit : K)
    (es : List (VelocityGroundConstraintElement2 K)) :
    ∀ mj : DeltaVel2 K,
      (frictionSweep2 tangents1 im2 limit es mj).1.map (fun e => e.normal_part) =
        es.map (fun e => e.normal_part) := by
  induction es with
  | nil => intro mj; rfl
  | cons e es ih =>
    intro mj
    simp only [frictionSweep2, List.map_cons]
    exact congrArg (List.cons e.normal_part) (ih _)

/-- The friction sweep never touches the normal parts (3D build). -/
theorem frictionSweep3_map_normal (sqrtFn : K → K) (tangents1_0 tangents1_1 : Vec3 K)
    (im2 limit : K) (es : List (VelocityGroundConstraintElement3 K)) :
    ∀ mj : DeltaVel3 K,
      (frictionSweep3 sqrtFn tangents1_0 tangents1_1 im2 limit es mj).1.map
          (fun e => e.normal_part) =
        es.map (fun e => e.normal_part) := by
  induction es with
  | nil => intro mj; rfl
  | cons e es ih =>
    intro mj
    simp only [frictionSweep3, List.map_cons]
    exact congrArg (List.cons e.normal_part) (ih _)

/-- Claim C5: with `solve_friction` on, the whole (optional) normal phase
runs first and the friction phase is applied to its result; the friction
phase solves each element's tangent part with cone radius
`limit * element.normal_part.impulse` read from that element at that moment,
and never alters a normal part — so the radius is the just-updated normal
impulse when `solve_normal` is on and the prior element value when it is
off, never a stale one. -/
theorem friction_limit_uses_current_normal_impulse :
    (∀ (es : List (VelocityGroundConstraintElement2 K)) (dir1 : Vec2 K) (im2 limit : K)
       (mj : DeltaVel2 K) (sn : Bool),
       VelocityGroundConstraintElement2.solve_group es dir1 im2 limit mj sn true =
         (let p :=
            if sn then VelocityGroundConstraintElement2.solve_group es dir1 im2 limit mj true false
            else (es, mj)
          VelocityGroundConstraintElement2.solve_group p.1 dir1 im2 limit p.2 false true)) ∧
    (∀ (e : VelocityGroundConstraintElement2 K) (es : List (VelocityGroundConstraintElement2 K))
       (dir1 : Vec2 K) (im2 limit : K) (mj : DeltaVel2 K),
       VelocityGroundConstraintElement2.solve_group (e :: es) dir1 im2 limit mj false true =
         (let p := e.tangent_part.solve dir1.orthonormal_vector im2
            (limit * e.normal_part.impulse) mj
          let q := VelocityGroundConstraintElement2.solve_group es dir1 im2 limit p.2 false true
          ({ e with tangent_part := p.1 } :: q.1, q.2))) ∧
    (∀ (es : List (VelocityGroundConstraintElement2 K)) (dir1 : Vec2 K) (im2 limit : K)
       (mj : DeltaVel2 K),
       (VelocityGroundConstraintElement2.solve_group es dir1 im2 limit mj false true).1.map
           (fun e => e.normal_part) =
         es.map (fun e => e.normal_part)) ∧
    (∀ (sqrtFn : K → K) (es : List (VelocityGroundConstraintElement3 K)) (dir1 tangent1 : Vec3 K)
       (im2 limit : K) (mj : DeltaVel3 K) (sn : Bool),
       VelocityGroundConstraintElement3.solve_group sqrtFn es dir1 tangent1 im2 limit mj sn true =
         (let p :=
            if sn then
              VelocityGroundConstraintElement3.solve_group sqrtFn es dir1 tangent1 im2 limit mj
                true false
            else (es, mj)
          VelocityGroundConstraintElement3.solve_group sqrtFn p.1 dir1 tangent1 im2 limit p.2
            false true)) ∧
    (∀ (sqrtFn : K → K) (e : VelocityGroundConstraintElement3 K)
       (es : List (VelocityGroundConstraintElement3 K)) (dir1 tangent1 : Vec3 K)
       (im2 limit : K) (mj : DeltaVel3 K),
       VelocityGroundConstraintElement3.solve_group sqrtFn (e :: es) dir1 tangent1 im2 limit mj
           false true =
         (let p := VelocityGroundConstraintTangentPart3.solve sqrtFn e.tangent_part tangent1
            (dir1.cross tangent1) im2 (limit * e.normal_part.impulse) mj
          let q := VelocityGroundConstraintElement3.solve_group sqrtFn es dir1 tangent1 im2 limit
            p.2 false true
          ({ e with tangent_part := p.1 } :: q.1, q.2))) ∧
    (∀ (sqrtFn : K → K) (es : List (VelocityGroundConstraintElement3 K)) (dir1 tangent1 : Vec3 K)
       (im2 limit : K) (mj : DeltaVel3 K),
       (VelocityGroundConstraintElement3.solve_group sqrtFn es dir1 tangent1 im2 limit mj
           false true).1.map (fun e => e.normal_part) =
         es.map (fun e => e.normal_part)) := by
  refine ⟨?_, ?_, ?_, ?_, ?_, ?_⟩
  · intro es dir1 im2 limit mj sn
    cases sn <;> rfl
  · intro e es dir1 im2 limit mj
    rfl
  · intro es dir1 im2 limit mj
    exact frictionSweep2_map_normal _ _ _ es mj
  · intro sqrtFn es dir1 tangent1 im2 limit mj sn
    cases sn <;> rfl
  · intro sqrtFn e es dir1 tangent1 im2 limit mj
    rfl
  · intro sqrtFn es dir1 tangent1 im2 limit mj
    exact frictionSweep3_map_normal _ _ _ _ _ es mj

/-- The arguments of one `solve_group` call, 2D build; `limit` is the
friction coefficient. -/
structure GroupCall2 (K : Type) where
  dir1 : Vec2 K
  im2 : K
  limit : K
  solve_normal : Bool
  solve_friction : Bool
  deriving DecidableEq, Inhabited

/-- The arguments of one `solve_group` call, 3D build. -/
structure GroupCall3 (K : Type) where
  dir1 : Vec3 K
  tangent1 : Vec3 K
  im2 : K
  limit : K
  solve_normal : Bool
  solve_friction : Bool
  deriving DecidableEq, Inhabited

/-- One `solve_group` call on the (elements, accumulator) state, 2D build. -/
def applyGroupCall2 (c : GroupCall2 K)
    (s : List (VelocityGroundConstraintElement2 K) × DeltaVel2 K) :
    List (VelocityGroundConstraintElement2 K) × DeltaVel2 K :=
  VelocityGroundConstraintElement2.solve_group s.1 c.dir1 c.im2 c.limit s.2
    c.solve_normal c.solve_friction

/-- One `solve_group` call on the (elements, accumulator) state, 3D build. -/
def applyGroupCall3 (sqrtFn : K → K) (c : GroupCall3 K)
    (s : List (VelocityGroundConstraintElement3 K) × DeltaVel3 K) :
    List (VelocityGroundConstraintElement3 K) × DeltaVel3 K :=
  VelocityGroundConstraintElement3.solve_group sqrtFn s.1 c.dir1 c.tangent1 c.im2 c.limit s.2
    c.solve_normal c.solve_friction

/-- A sequence of `solve_group` calls, 2D build. -/
def runGroupCalls2 :
    List (GroupCall2 K) →
    List (VelocityGroundConstraintElement2 K) × DeltaVel2 K →
    List (VelocityGroundConstraintElement2 K) × DeltaVel2 K
  | [], s => s
  | c :: cs, s => runGroupCalls2 cs (applyGroupCall2 c s)

/-- A sequence of `solve_group` calls, 3D build. -/
def runGroupCalls3 (sqrtFn : K → K) :
    List (GroupCall3 K) →
    List (VelocityGroundConstraintElement3 K) × DeltaVel3 K →
    List (VelocityGroundConstraintElement3 K) × DeltaVel3 K
  | [], s => s
  | c :: cs, s => runGroupCalls3 sqrtFn cs (applyGroupCall3 sqrtFn c s)

/-- Every element leaving a 2D normal sweep has a nonnegative normal
impulse. -/
theorem normalSweep2_impulse_nonneg (dir1 : Vec2 K) (im2 : K)
    (es : List (VelocityGroundConstraintElement2 K)) :
    ∀ (mj : DeltaVel2 K) (e2 : VelocityGroundConstraintElement2 K),
      e2 ∈ (normalSweep2 dir1 im2 es mj).1 → 0 ≤ e2.normal_part.impulse := by
  induction es with
  | nil =>
    intro mj e2 h2
    simp only [normalSweep2] at h2
    exact absurd h2 (List.not_mem_nil _)
  | cons e es ih =>
    intro mj e2 h2
    simp only [normalSweep2, List.mem_cons] at h2
    rcases h2 with h2 | h2
    · subst h2
      exact normal2_solve_impulse_nonneg e.normal_part dir1 im2 mj
    · exact ih _ e2 h2

/-- Every element leaving a 3D normal sweep has a nonnegative normal
impulse. -/
theorem normalSweep3_impulse_nonneg (dir1 : Vec3 K) (im2 : K)
    (es : List (VelocityGroundConstraintElement3 K)) :
    ∀ (mj : DeltaVel3 K) (e2 : VelocityGroundConstraintElement3 K),
      e2 ∈ (normalSweep3 dir1 im2 es mj).1 → 0 ≤ e2.normal_part.impulse := by
  induction es with
  | nil =>
    intro mj e2 h2
    simp only [normalSweep3] at h2
    exact absurd h2 (List.not_mem_nil _)
  | cons e es ih =>
    intro mj e2 h2
    simp only [normalSweep3, List.mem_cons] at h2
    rcases h2 with h2 | h2
    · subst h2
      exact normal3_solve_impulse_nonneg e.normal_part dir1 im2 mj
    · exact ih _ e2 h2

/-- The 2D friction sweep keeps normal impulses as they are, in particular
nonnegative. -/
theorem frictionSweep2_normal_nonneg (tangents1 : Vec2 K) (im2 limit : K)
    (es : List (VelocityGroundConstraintElement2 K)) (mj : DeltaVel2 K)
    (h : ∀ e ∈ es, 0 ≤ e.normal_part.impulse) :
    ∀ e2 ∈ (frictionSweep2 tangents1 im2 limit es mj).1, 0 ≤ e2.normal_part.impulse := by
  intro e2 h2
  have hmm : e2.normal_part ∈
      (frictionSweep2 tangents1 im2 limit es mj).1.map (fun e => e.normal_part) :=
    List.mem_map_of_mem _ h2
  rw [frictionSweep2_map_normal] at hmm
  obtain ⟨e, he, heq⟩ := List.mem_map.mp hmm
  have := h e he
  rw [heq] at this
  exact this

/-- The 3D friction sweep keeps normal impulses as they are, in particular
nonnegative. -/
theorem frictionSweep3_normal_nonneg (sqrtFn : K → K) (tangents1_0 tangents1_1 : Vec3 K)
    (im2 limit : K) (es : List (VelocityGroundConstraintElement3 K)) (mj : DeltaVel3 K)
    (h : ∀ e ∈ es, 0 ≤ e.normal_part.impulse) :
    ∀ e2 ∈ (frictionSweep3 sqrtFn tangents1_0 tangents1_1 im2 limit es mj).1,
      0 ≤ e2.normal_part.impulse := by
  intro e2 h2
  have hmm : e2.normal_part ∈
      (frictionSweep3 sqrtFn tangents1_0 tangents1_1 im2 limit es mj).1.map
        (fun e => e.normal_part) :=
    List.mem_map_of_mem _ h2
  rw [frictionSweep3_map_normal] at hmm
  obtain ⟨e, he, heq⟩ := List.mem_map.mp hmm
  have := h e he
  rw [heq] at this
  exact this

/-- A 2D `solve_group` call preserves nonnegativity of every normal
impulse. -/
theorem solve_group2_normal_nonneg
    (es : List (VelocityGroundConstraintElement2 K)) (dir1 : Vec2 K) (im2 limit : K)
    (mj : DeltaVel2 K) (sn sf : Bool)
    (h : ∀ e ∈ es, 0 ≤ e.normal_part.impulse) :
    ∀ e2 ∈ (VelocityGroundConstraintElement2.solve_group es dir1 im2 limit mj sn sf).1,
      0 ≤ e2.normal_part.impulse := by
  cases sn <;> cases sf
  · exact fun e2 h2 => h e2 h2
  · exact frictionSweep2_normal_nonneg _ _ _ _ _ h
  · exact fun e2 h2 => normalSweep2_impulse_nonneg dir1 im2 es mj e2 h2
  · exact frictionSweep2_normal_nonneg _ _ _ _ _
      (fun e2 h2 => normalSweep2_impulse_nonneg dir1 im2 es mj e2 h2)

/-- A 3D `solve_group` call preserves nonnegativity of every normal
impulse. -/
theorem solve_group3_normal_nonneg (sqrtFn : K → K)
    (es : List (VelocityGroundConstraintElement3 K)) (dir1 tangent1 : Vec3 K)
    (im2 limit : K) (mj : DeltaVel3 K) (sn sf : Bool)
    (h : ∀ e ∈ es, 0 ≤ e.normal_part.impulse) :
    ∀ e2 ∈ (VelocityGroundConstraintElement3.solve_group sqrtFn es dir1 tangent1 im2 limit mj
        sn sf).1,
      0 ≤ e2.normal_part.impulse := by
  cases sn <;> cases sf
  · exact fun e2 h2 => h e2 h2
  · exact frictionSweep3_normal_nonneg _ _ _ _ _ _ _ h
  · exact fun e2 h2 => normalSweep3_impulse_nonneg dir1 im2 es mj e2 h2
  · exact frictionSweep3_normal_nonneg _ _ _ _ _ _ _
      (fun e2 h2 => normalSweep3_impulse_nonneg dir1 im2 es mj e2 h2)

/-- Any 2D call sequence preserves nonnegativity of every normal impulse. -/
theorem runGroupCalls2_normal_nonneg (calls : List (GroupCall2 K)) :
    ∀ (s : List (VelocityGroundConstraintElement2 K) × DeltaVel2 K),
      (∀ e ∈ s.1, 0 ≤ e.normal_part.impulse) →
      ∀ e2 ∈ (runGroupCalls2 calls s).1, 0 ≤ e2.normal_part.impulse := by
  induction calls with
  | nil => exact fun s h => h
  | cons c cs ih =>
    intro s h
    exact ih _ (solve_group2_normal_nonneg s.1 c.dir1 c.im2 c.limit s.2
      c.solve_normal c.solve_friction h)

/-- Any 3D call sequence preserves nonnegativity of every normal impulse. -/
theorem runGroupCalls3_normal_nonneg (sqrtFn : K → K) (calls : List (GroupCall3 K)) :
    ∀ (s : List (VelocityGroundConstraintElement3 K) × DeltaVel3 K),
      (∀ e ∈ s.1, 0 ≤ e.normal_part.impulse) →
      ∀ e2 ∈ (runGroupCalls3 sqrtFn calls s).1, 0 ≤ e2.normal_part.impulse := by
  induction calls with
  | nil => exact fun s h => h
  | cons c cs ih =>
    intro s h
    exact ih _ (solve_group3_normal_nonneg sqrtFn s.1 c.dir1 c.tangent1 c.im2 c.limit s.2
      c.solve_normal c.solve_friction h)

/-- After a 2D friction sweep with coefficient `limit ≥ 0` over elements with
nonnegative normal impulses, every element's tangent impulse lies inside its
friction cone. -/
theorem frictionSweep2_cone (tangents1 : Vec2 K) (im2 limit : K) (hl : 0 ≤ limit)
    (es : List (VelocityGroundConstraintElement2 K)) :
    ∀ (mj : DeltaVel2 K), (∀ e ∈ es, 0 ≤ e.normal_part.impulse) →
      ∀ e2 ∈ (frictionSweep2 tangents1 im2 limit es mj).1,
        |e2.tangent_part.impulse| ≤ limit * e2.normal_part.impulse := by
  induction es with
  | nil =>
    intro mj _ e2 h2
    simp only [frictionSweep2] at h2
    exact absurd h2 (List.not_mem_nil _)
  | cons e es ih =>
    intro mj h e2 h2
    simp only [frictionSweep2, List.mem_cons] at h2
    rcases h2 with h2 | h2
    · subst h2
      have hnn : 0 ≤ limit * e.normal_part.impulse :=
        mul_nonneg hl (h e (List.mem_cons_self e es))
      simp only [VelocityGroundConstraintTangentPart2.solve]
      exact abs_simdClamp_le _ _ hnn
    · exact ih _ (fun e3 h3 => h e3 (List.mem_cons_of_mem e h3)) e2 h2

/-- After a 3D friction sweep with coefficient `limit ≥ 0` over elements with
nonnegative normal impulses, every element's tangent impulse lies inside its
friction cone. -/
theorem frictionSweep3_cone (f : K → K) (hf : SqrtSpec f)
    (tangents1_0 tangents1_1 : Vec3 K) (im2 limit : K) (hl : 0 ≤ limit)
    (es : List (VelocityGroundConstraintElement3 K)) :
    ∀ (mj : DeltaVel3 K), (∀ e ∈ es, 0 ≤ e.normal_part.impulse) →
      ∀ e2 ∈ (frictionSweep3 f tangents1_0 tangents1_1 im2 limit es mj).1,
        f e2.tangent_part.impulse.normSq ≤ limit * e2.normal_part.impulse := by
  induction es with
  | nil =>
    intro mj _ e2 h2
    simp only [frictionSweep3] at h2
    exact absurd h2 (List.not_mem_nil _)
  | cons e es ih =>
    intro mj h e2 h2
    simp only [frictionSweep3, List.mem_cons] at h2
    rcases h2 with h2 | h2
    · subst h2
      have hnn : 0 ≤ limit * e.normal_part.impulse :=
        mul_nonneg hl (h e (List.mem_cons_self e es))
      simp only [VelocityGroundConstraintTangentPart3.solve]
      exact capMagnitude_normSq_le f hf _ _ hnn
    · exact ih _ (fun e3 h3 => h e3 (List.mem_cons_of_mem e h3)) e2 h2

/-- Claim C3: along every sequence of `solve_group` calls started from
elements with nonnegative normal impulses (e.g. freshly zeroed or warm
started from converged values), a call with `solve_friction` on and a
nonnegative friction coefficient leaves every element's friction impulse
inside its cone: ‖tangent impulse‖ ≤ coefficient × that element's normal
impulse.  Out-of-range indices read the zero element, which satisfies the
bound trivially. -/
theorem friction_cone_containment :
    (∀ (s : List (VelocityGroundConstraintElement2 K) × DeltaVel2 K)
       (calls : List (GroupCall2 K)) (c : GroupCall2 K),
       (∀ e ∈ s.1, 0 ≤ e.normal_part.impulse) → 0 ≤ c.limit → c.solve_friction = true →
       ∀ i : ℕ,
         |((applyGroupCall2 c (runGroupCalls2 calls s)).1.getD i
             VelocityGroundConstraintElement2.zero).tangent_part.impulse| ≤
           c.limit * ((applyGroupCall2 c (runGroupCalls2 calls s)).1.getD i
             VelocityGroundConstraintElement2.zero).normal_part.impulse) ∧
    (∀ (f : K → K), SqrtSpec f →
       ∀ (s : List (VelocityGroundConstraintElement3 K) × DeltaVel3 K)
         (calls : List (GroupCall3 K)) (c : GroupCall3 K),
         (∀ e ∈ s.1, 0 ≤ e.normal_part.impulse) → 0 ≤ c.limit → c.solve_friction = true →
         ∀ i : ℕ,
           f ((applyGroupCall3 f c (runGroupCalls3 f calls s)).1.getD i
               VelocityGroundConstraintElement3.zero).tangent_part.impulse.normSq ≤
             c.limit * ((applyGroupCall3 f c (runGroupCalls3 f calls s)).1.getD i
               VelocityGroundConstraintElement3.zero).normal_part.impulse) := by
  constructor
  · intro s calls c h hl hsf
    have hrun := runGroupCalls2_normal_nonneg calls s h
    have hmem : ∀ e2 ∈ (applyGroupCall2 c (runGroupCalls2 calls s)).1,
        |e2.tangent_part.impulse| ≤ c.limit * e2.normal_part.impulse := by
      obtain ⟨d, im, l, sn, sf⟩ := c
      simp only at hsf hl ⊢
      subst hsf
      cases sn
      · exact frictionSweep2_cone _ _ _ hl _ _ hrun
      · exact frictionSweep2_cone _ _ _ hl _ _
          (fun e2 h2 => normalSweep2_impulse_nonneg d im _ _ e2 h2)
    intro i
    rcases lt_or_le i (applyGroupCall2 c (runGroupCalls2 calls s)).1.length with hi | hi
    · rw [List.getD_eq_getElem _ _ hi]
      exact hmem _ (List.getElem_mem hi)
    · rw [List.getD_eq_default _ _ hi]
      simp [VelocityGroundConstraintElement2.zero, VelocityGroundConstraintTangentPart2.zero,
        VelocityGroundConstraintNormalPart2.zero]
  · intro f hf s calls c h hl hsf
    have hrun := runGroupCalls3_normal_nonneg f calls s h
    have hmem : ∀ e2 ∈ (applyGroupCall3 f c (runGroupCalls3 f calls s)).1,
        f e2.tangent_part.impulse.normSq ≤ c.limit * e2.normal_part.impulse := by
      obtain ⟨d, t1, im, l, sn, sf⟩ := c
      simp only at hsf hl ⊢
      subst hsf
      cases sn
      · exact frictionSweep3_cone f hf _ _ _ _ hl _ _ hrun
      · exact frictionSweep3_cone f hf _ _ _ _ hl _ _
          (fun e2 h2 => normalSweep3_impulse_nonneg d im _ _ e2 h2)
    intro i
    rcases lt_or_le i (applyGroupCall3 f c (runGroupCalls3 f calls s)).1.length with hi | hi
    · rw [List.getD_eq_getElem _ _ hi]
      exact hmem _ (List.getElem_mem hi)
    · rw [List.getD_eq_default _ _ hi]
      have hz : f (Vec2.normSq (⟨0, 0⟩ : Vec2 K)) = 0 := by
        have h0 : Vec2.normSq (⟨0, 0⟩ : Vec2 K) = 0 := by
          simp [Vec2.normSq]
        rw [h0]
        exact mul_self_eq_zero.mp (hf 0 le_rfl).2
      simp [VelocityGroundConstraintElement3.zero, VelocityGroundConstraintTangentPart3.zero,
        VelocityGroundConstraintNormalPart3.zero, hz]

/-- Claim C3 witness: the 2D conjunct, from a single freshly zeroed element
through the empty prior sequence and a combined normal-and-friction call
with coefficient `1/2`. -/
theorem friction_cone_containment_witness :
    |((applyGroupCall2 (⟨⟨0, 1⟩, 1, 1 / 2, true, true⟩ : GroupCall2 ℚ)
        (runGroupCalls2 [] ([VelocityGroundConstraintElement2.zero], ⟨⟨0, 0⟩, 0⟩))).1.getD 0
          VelocityGroundConstraintElement2.zero).tangent_part.impulse| ≤
      (1 / 2 : ℚ) * ((applyGroupCall2 (⟨⟨0, 1⟩, 1, 1 / 2, true, true⟩ : GroupCall2 ℚ)
        (runGroupCalls2 [] ([VelocityGroundConstraintElement2.zero], ⟨⟨0, 0⟩, 0⟩))).1.getD 0
          VelocityGroundConstraintElement2.zero).normal_part.impulse :=
  friction_cone_containment.1 _ _ _
    (by
      intro e he
      simp only [List.mem_singleton] at he
      subst he
      norm_num [VelocityGroundConstraintElement2.zero, VelocityGroundConstraintNormalPart2.zero])
    (by norm_num) rfl 0

/-- Adding a zero scalar multiple changes nothing (2-vectors). -/
theorem vec2_add_smul_zero (v t : Vec2 K) : v.add (Vec2.smul 0 t) = v := by
  simp only [Vec2.add, Vec2.smul, zero_mul, add_zero]

/-- Adding a zero scalar multiple changes nothing (3-vectors). -/
theorem vec3_add_smul_zero (v t : Vec3 K) : v.add (Vec3.smul 0 t) = v := by
  simp only [Vec3.add, Vec3.smul, zero_mul, add_zero]

/-- Adding two zero scalar multiples changes nothing (3-vectors). -/
theorem vec3_add_smul_zero_two (v a b : Vec3 K) :
    v.add ((Vec3.smul 0 a).add (Vec3.smul 0 b)) = v := by
  simp only [Vec3.add, Vec3.smul, zero_mul, add_zero]

/-- A 2D normal solve at zero violation with a feasible impulse is a
fixed point. -/
theorem normal2_solve_fixed (self : VelocityGroundConstraintNormalPart2 K)
    (dir1 : Vec2 K) (im2 : K) (mj : DeltaVel2 K) (h0 : 0 ≤ self.impulse)
    (hd : -(dir1.dot mj.linear) + self.gcross2 * mj.angular + self.rhs = 0) :
    self.solve dir1 im2 mj = (self, mj) := by
  simp only [VelocityGroundConstraintNormalPart2.solve, simdMax]
  rw [hd]
  simp only [mul_zero, sub_zero]
  rw [max_eq_left h0]
  simp only [sub_self, mul_zero, add_zero, vec2_add_smul_zero]

/-- A 3D normal solve at zero violation with a feasible impulse is a
fixed point. -/
theorem normal3_solve_fixed (self : VelocityGroundConstraintNormalPart3 K)
    (dir1 : Vec3 K) (im2 : K) (mj : DeltaVel3 K) (h0 : 0 ≤ self.impulse)
    (hd : -(dir1.dot mj.linear) + self.gcross2.dot mj.angular + self.rhs = 0) :
    self.solve dir1 im2 mj = (self, mj) := by
  simp only [VelocityGroundConstraintNormalPart3.solve, simdMax]
  rw [hd]
  simp only [mul_zero, sub_zero]
  rw [max_eq_left h0]
  simp only [sub_self, mul_zero, vec3_add_smul_zero]

/-- A 2D tangent solve at zero violation with an impulse inside the box is a
fixed point. -/
theorem tangent2_solve_fixed (self : VelocityGroundConstraintTangentPart2 K)
    (tangents1 : Vec2 K) (im2 limit : K) (mj : DeltaVel2 K)
    (hc : |self.impulse| ≤ limit)
    (hd : -(tangents1.dot mj.linear) + self.gcross2 * mj.angular + self.rhs = 0) :
    self.solve tangents1 im2 limit mj = (self, mj) := by
  obtain ⟨hc1, hc2⟩ := abs_le.mp hc
  simp only [VelocityGroundConstraintTangentPart2.solve, simdClamp]
  rw [hd]
  simp only [mul_zero, sub_zero]
  rw [max_eq_left hc1, min_eq_left hc2]
  simp only [sub_self, mul_zero, add_zero, vec2_add_smul_zero]

/-- A 3D tangent solve at zero violations with an impulse inside the disk is
a fixed point. -/
theorem tangent3_solve_fixed (f : K → K) (self : VelocityGroundConstraintTangentPart3 K)
    (tangents1_0 tangents1_1 : Vec3 K) (im2 limit : K) (mj : DeltaVel3 K)
    (hc : f self.impulse.normSq ≤ limit)
    (hd0 : -(tangents1_0.dot mj.linear) + self.gcross2_0.dot mj.angular + self.rhs_0 = 0)
    (hd1 : -(tangents1_1.dot mj.linear) + self.gcross2_1.dot mj.angular + self.rhs_1 = 0) :
    VelocityGroundConstraintTangentPart3.solve f self tangents1_0 tangents1_1 im2 limit mj =
      (self, mj) := by
  simp only [VelocityGroundConstraintTangentPart3.solve]
  rw [hd0, hd1]
  simp only [mul_zero, sub_zero]
  rw [show (⟨self.impulse.x, self.impulse.y⟩ : Vec2 K) = self.impulse from rfl]
  rw [capMagnitude, if_neg (not_lt.mpr hc)]
  simp only [sub_self, mul_zero, vec3_add_smul_zero_two]

/-- A 2D normal sweep over elements that are all at zero violation with
feasible impulses changes nothing. -/
theorem normalSweep2_fixed (dir1 : Vec2 K) (im2 : K)
    (es : List (VelocityGroundConstraintElement2 K)) (mj : DeltaVel2 K)
    (h : ∀ e ∈ es, 0 ≤ e.normal_part.impulse ∧
      -(dir1.dot mj.linear) + e.normal_part.gcross2 * mj.angular + e.normal_part.rhs = 0) :
    normalSweep2 dir1 im2 es mj = (es, mj) := by
  induction es with
  | nil => rfl
  | cons e es ih =>
    have he := h e (List.mem_cons_self e es)
    have hfix := normal2_solve_fixed e.normal_part dir1 im2 mj he.1 he.2
    simp only [normalSweep2, hfix]
    rw [ih (fun e2 h2 => h e2 (List.mem_cons_of_mem e h2))]

/-- A 3D normal sweep over elements that are all at zero violation with
feasible impulses changes nothing. -/
theorem normalSweep3_fixed (dir1 : Vec3 K) (im2 : K)
    (es : List (VelocityGroundConstraintElement3 K)) (mj : DeltaVel3 K)
    (h : ∀ e ∈ es, 0 ≤ e.normal_part.impulse ∧
      -(dir1.dot mj.linear) + e.normal_part.gcross2.dot mj.angular + e.normal_part.rhs = 0) :
    normalSweep3 dir1 im2 es mj = (es, mj) := by
  induction es with
  | nil => rfl
  | cons e es ih =>
    have he := h e (List.mem_cons_self e es)
    have hfix := normal3_solve_fixed e.normal_part dir1 im2 mj he.1 he.2
    simp only [normalSweep3, hfix]
    rw [ih (fun e2 h2 => h e2 (List.mem_cons_of_mem e h2))]

/-- A 2D friction sweep over elements that are all at zero tangential
violation with in-cone impulses changes nothing. -/
theorem frictionSweep2_fixed (tangents1 : Vec2 K) (im2 limit : K)
    (es : List (VelocityGroundConstraintElement2 K)) (mj : DeltaVel2 K)
    (h : ∀ e ∈ es, |e.tangent_part.impulse| ≤ limit * e.normal_part.impulse ∧
      -(tangents1.dot mj.linear) + e.tangent_part.gcross2 * mj.angular + e.tangent_part.rhs = 0) :
    frictionSweep2 tangents1 im2 limit es mj = (es, mj) := by
  induction es with
  | nil => rfl
  | cons e es ih =>
    have he := h e (List.mem_cons_self e es)
    have hfix := tangent2_solve_fixed e.tangent_part tangents1 im2
      (limit * e.normal_part.impulse) mj he.1 he.2
    simp only [frictionSweep2, hfix]
    rw [ih (fun e2 h2 => h e2 (List.mem_cons_of_mem e h2))]

/-- A 3D friction sweep over elements that are all at zero tangential
violations with in-disk impulses changes nothing. -/
theorem frictionSweep3_fixed (f : K → K) (tangents1_0 tangents1_1 : Vec3 K)
    (im2 limit : K) (es : List (VelocityGroundConstraintElement3 K)) (mj : DeltaVel3 K)
    (h : ∀ e ∈ es, f e.tangent_part.impulse.normSq ≤ limit * e.normal_part.impulse ∧
      -(tangents1_0.dot mj.linear) + e.tangent_part.gcross2_0.dot mj.angular +
        e.tangent_part.rhs_0 = 0 ∧
      -(tangents1_1.dot mj.linear) + e.tangent_part.gcross2_1.dot mj.angular +
        e.tangent_part.rhs_1 = 0) :
    frictionSweep3 f tangents1_0 tangents1_1 im2 limit es mj = (es, mj) := by
  induction es with
  | nil => rfl
  | cons e es ih =>
    have he := h e (List.mem_cons_self e es)
    have hfix := tangent3_solve_fixed f e.tangent_part tangents1_0 tangents1_1 im2
      (limit * e.normal_part.impulse) mj he.1 he.2.1 he.2.2
    simp only [frictionSweep3, hfix]
    rw [ih (fun e2 h2 => h e2 (List.mem_cons_of_mem e h2))]

/-- Claim C8: a converged state is a fixed point of `solve_group` — when for
every element the normal violation rate and each tangential violation rate
are exactly zero against the current accumulator, every normal impulse is
nonnegative and every tangent impulse lies inside its friction cone, then a
further `solve_group` call, with any flag combination, changes no impulse
and leaves the accumulator as it is (both builds; exact arithmetic). -/
theorem solve_group_idempotent_at_convergence :
    (∀ (es : List (VelocityGroundConstraintElement2 K)) (dir1 : Vec2 K) (im2 limit : K)
       (mj : DeltaVel2 K),
       (∀ e ∈ es,
         0 ≤ e.normal_part.impulse ∧
         -(dir1.dot mj.linear) + e.normal_part.gcross2 * mj.angular + e.normal_part.rhs = 0 ∧
         |e.tangent_part.impulse| ≤ limit * e.normal_part.impulse ∧
         -(dir1.orthonormal_vector.dot mj.linear) + e.tangent_part.gcross2 * mj.angular +
           e.tangent_part.rhs = 0) →
       ∀ sn sf : Bool,
         VelocityGroundConstraintElement2.solve_group es dir1 im2 limit mj sn sf = (es, mj)) ∧
    (∀ (f : K → K) (es : List (VelocityGroundConstraintElement3 K)) (dir1 tangent1 : Vec3 K)
       (im2 limit : K) (mj : DeltaVel3 K),
       (∀ e ∈ es,
         0 ≤ e.normal_part.impulse ∧
         -(dir1.dot mj.linear) + e.normal_part.gcross2.dot mj.angular + e.normal_part.rhs = 0 ∧
         f e.tangent_part.impulse.normSq ≤ limit * e.normal_part.impulse ∧
         -(tangent1.dot mj.linear) + e.tangent_part.gcross2_0.dot mj.angular +
           e.tangent_part.rhs_0 = 0 ∧
         -((dir1.cross tangent1).dot mj.linear) + e.tangent_part.gcross2_1.dot mj.angular +
           e.tangent_part.rhs_1 = 0) →
       ∀ sn sf : Bool,
         VelocityGroundConstraintElement3.solve_group f es dir1 tangent1 im2 limit mj sn sf =
           (es, mj)) := by
  constructor
  · intro es dir1 im2 limit mj h sn sf
    have hN := normalSweep2_fixed dir1 im2 es mj (fun e he => ⟨(h e he).1, (h e he).2.1⟩)
    have hF := frictionSweep2_fixed dir1.orthonormal_vector im2 limit es mj
      (fun e he => ⟨(h e he).2.2.1, (h e he).2.2.2⟩)
    cases sn <;> cases sf
    · rfl
    · exact hF
    · exact hN
    · have hstage : VelocityGroundConstraintElement2.solve_group es dir1 im2 limit mj
          true true =
          frictionSweep2 dir1.orthonormal_vector im2 limit (normalSweep2 dir1 im2 es mj).1
            (normalSweep2 dir1 im2 es mj).2 := rfl
      rw [hstage, hN]
      exact hF
  · intro f es dir1 tangent1 im2 limit mj h sn sf
    have hN := normalSweep3_fixed dir1 im2 es mj (fun e he => ⟨(h e he).1, (h e he).2.1⟩)
    have hF := frictionSweep3_fixed f tangent1 (dir1.cross tangent1) im2 limit es mj
      (fun e he => ⟨(h e he).2.2.1, (h e he).2.2.2.1, (h e he).2.2.2.2⟩)
    cases sn <;> cases sf
    · rfl
    · exact hF
    · exact hN
    · have hstage : VelocityGroundConstraintElement3.solve_group f es dir1 tangent1 im2 limit mj
          true true =
          frictionSweep3 f tangent1 (dir1.cross tangent1) im2 limit
            (normalSweep3 dir1 im2 es mj).1 (normalSweep3 dir1 im2 es mj).2 := rfl
      rw [hstage, hN]
      exact hF

/-- Claim C8 witness: the 2D conjunct on one freshly zeroed element (all
violation rates vanish, the zero impulses are feasible), with both flags
on. -/
theorem solve_group_idempotent_at_convergence_witness :
    VelocityGroundConstraintElement2.solve_group
      [VelocityGroundConstraintElement2.zero] ⟨0, 1⟩ 1 1
      (⟨⟨0, 0⟩, 0⟩ : DeltaVel2 ℚ) true true =
      ([VelocityGroundConstraintElement2.zero], ⟨⟨0, 0⟩, 0⟩) :=
  solve_group_idempotent_at_convergence.1 _ _ _ _ _
    (by
      intro e he
      simp only [List.mem_singleton] at he
      subst he
      norm_num [VelocityGroundConstraintElement2.zero, VelocityGroundConstraintNormalPart2.zero,
        VelocityGroundConstraintTangentPart2.zero, Vec2.dot, Vec2.orthonormal_vector])
    true true

/-- The per-element fields a solve must not change, 2D build. -/
def frameFields2 (e : VelocityGroundConstraintElement2 K) :
    K × K × K × K × K × K × K :=
  (e.normal_part.gcross2, e.normal_part.rhs, e.normal_part.rhs_wo_bias, e.normal_part.r,
   e.tangent_part.gcross2, e.tangent_part.rhs, e.tangent_part.r)

/-- The per-element fields a solve must not change, 3D build. -/
def frameFields3 (e : VelocityGroundConstraintElement3 K) :
    Vec3 K × K × K × K × Vec3 K × Vec3 K × K × K × K × K :=
  (e.normal_part.gcross2, e.normal_part.rhs, e.normal_part.rhs_wo_bias, e.normal_part.r,
   e.tangent_part.gcross2_0, e.tangent_part.gcross2_1, e.tangent_part.rhs_0,
   e.tangent_part.rhs_1, e.tangent_part.r_0, e.tangent_part.r_1)

/-- A normal solve on an element changes none of its frame fields (2D). -/
theorem frameFields2_after_normal (e : VelocityGroundConstraintElement2 K)
    (dir1 : Vec2 K) (im2 : K) (mj : DeltaVel2 K) :
    frameFields2 { e with normal_part := (e.normal_part.solve dir1 im2 mj).1 } =
      frameFields2 e := rfl

/-- A tangent solve on an element changes none of its frame fields (2D). -/
theorem frameFields2_after_tangent (e : VelocityGroundConstraintElement2 K)
    (tangents1 : Vec2 K) (im2 limit : K) (mj : DeltaVel2 K) :
    frameFields2 { e with tangent_part := (e.tangent_part.solve tangents1 im2 limit mj).1 } =
      frameFields2 e := rfl

/-- A normal solve on an element changes none of its frame fields (3D). -/
theorem frameFields3_after_normal (e : VelocityGroundConstraintElement3 K)
    (dir1 : Vec3 K) (im2 : K) (mj : DeltaVel3 K) :
    frameFields3 { e with normal_part := (e.normal_part.solve dir1 im2 mj).1 } =
      frameFields3 e := rfl

/-- A tangent solve on an element changes none of its frame fields (3D). -/
theorem frameFields3_after_tangent (f : K → K) (e : VelocityGroundConstraintElement3 K)
    (tangents1_0 tangents1_1 : Vec3 K) (im2 limit : K) (mj : DeltaVel3 K) :
    frameFields3 { e with tangent_part :=
      (VelocityGroundConstraintTangentPart3.solve f e.tangent_part tangents1_0 tangents1_1
        im2 limit mj).1 } = frameFields3 e := rfl

/-- A 2D normal sweep changes no frame field of any element. -/
theorem normalSweep2_map_frame (dir1 : Vec2 K) (im2 : K)
    (es : List (VelocityGroundConstraintElement2 K)) :
    ∀ mj, (normalSweep2 dir1 im2 es mj).1.map frameFields2 = es.map frameFields2 := by
  induction es with
  | nil => intro mj; rfl
  | cons e es ih =>
    intro mj
    simp only [normalSweep2, List.map_cons, frameFields2_after_normal, ih]

/-- A 2D friction sweep changes no frame field of any element. -/
theorem frictionSweep2_map_frame (tangents1 : Vec2 K) (im2 limit : K)
    (es : List (VelocityGroundConstraintElement2 K)) :
    ∀ mj, (frictionSweep2 tangents1 im2 limit es mj).1.map frameFields2 =
      es.map frameFields2 := by
  induction es with
  | nil => intro mj; rfl
  | cons e es ih =>
    intro mj
    simp only [frictionSweep2, List.map_cons, frameFields2_after_tangent, ih]

/-- A 3D normal sweep changes no frame field of any element. -/
theorem normalSweep3_map_frame (dir1 : Vec3 K) (im2 : K)
    (es : List (VelocityGroundConstraintElement3 K)) :
    ∀ mj, (normalSweep3 dir1 im2 es mj).1.map frameFields3 = es.map frameFields3 := by
  induction es with
  | nil => intro mj; rfl
  | cons e es ih =>
    intro mj
    simp only [normalSweep3, List.map_cons, frameFields3_after_normal, ih]

/-- A 3D friction sweep changes no frame field of any element. -/
theorem frictionSweep3_map_frame (f : K → K) (tangents1_0 tangents1_1 : Vec3 K)
    (im2 limit : K) (es : List (VelocityGroundConstraintElement3 K)) :
    ∀ mj, (frictionSweep3 f tangents1_0 tangents1_1 im2 limit es mj).1.map frameFields3 =
      es.map frameFields3 := by
  induction es with
  | nil => intro mj; rfl
  | cons e es ih =>
    intro mj
    simp only [frictionSweep3, List.map_cons, frameFields3_after_tangent, ih]

/-- A 2D normal sweep preserves the number of elements. -/
theorem normalSweep2_length (dir1 : Vec2 K) (im2 : K)
    (es : List (VelocityGroundConstraintElement2 K)) :
    ∀ mj, (normalSweep2 dir1 im2 es mj).1.length = es.length := by
  induction es with
  | nil => intro mj; rfl
  | cons e es ih =>
    intro mj
    simp only [normalSweep2, List.length_cons, ih]

/-- A 3D normal sweep preserves the number of elements. -/
theorem normalSweep3_length (dir1 : Vec3 K) (im2 : K)
    (es : List (VelocityGroundConstraintElement3 K)) :
    ∀ mj, (normalSweep3 dir1 im2 es mj).1.length = es.length := by
  induction es with
  | nil => intro mj; rfl
  | cons e es ih =>
    intro mj
    simp only [normalSweep3, List.length_cons, ih]

/-- Overwrite the unread stabilization-free target of an element (2D). -/
def setRhsWoBias2 (e : VelocityGroundConstraintElement2 K) (w : K) :
    VelocityGroundConstraintElement2 K :=
  { e with normal_part := { e.normal_part with rhs_wo_bias := w } }

/-- Overwrite the unread stabilization-free target of an element (3D). -/
def setRhsWoBias3 (e : VelocityGroundConstraintElement3 K) (w : K) :
    VelocityGroundConstraintElement3 K :=
  { e with normal_part := { e.normal_part with rhs_wo_bias := w } }

/-- The 2D normal solve never reads `rhs_wo_bias`: overwriting it first
merely carries the new value through. -/
theorem normal2_solve_woBias (s : VelocityGroundConstraintNormalPart2 K) (w : K)
    (dir1 : Vec2 K) (im2 : K) (mj : DeltaVel2 K) :
    VelocityGroundConstraintNormalPart2.solve { s with rhs_wo_bias := w } dir1 im2 mj =
      ({ (s.solve dir1 im2 mj).1 with rhs_wo_bias := w }, (s.solve dir1 im2 mj).2) := rfl

/-- The 3D normal solve never reads `rhs_wo_bias`. -/
theorem normal3_solve_woBias (s : VelocityGroundConstraintNormalPart3 K) (w : K)
    (dir1 : Vec3 K) (im2 : K) (mj : DeltaVel3 K) :
    VelocityGroundConstraintNormalPart3.solve { s with rhs_wo_bias := w } dir1 im2 mj =
      ({ (s.solve dir1 im2 mj).1 with rhs_wo_bias := w }, (s.solve dir1 im2 mj).2) := rfl

/-- A 2D normal sweep never reads any element's `rhs_wo_bias`. -/
theorem normalSweep2_woBias (dir1 : Vec2 K) (im2 : K)
    (es : List (VelocityGroundConstraintElement2 K)) :
    ∀ (ws : List K) (mj : DeltaVel2 K), ws.length = es.length →
      normalSweep2 dir1 im2 (List.zipWith setRhsWoBias2 es ws) mj =
        (List.zipWith setRhsWoBias2 (normalSweep2 dir1 im2 es mj).1 ws,
         (normalSweep2 dir1 im2 es mj).2) := by
  induction es with
  | nil =>
    intro ws mj h
    have hw : ws = [] := List.length_eq_zero.mp h
    subst hw
    rfl
  | cons e es ih =>
    intro ws mj h
    cases ws with
    | nil => simp at h
    | cons w ws =>
      have hlen : ws.length = es.length := by simpa using h
      have ihh := fun mj2 => ih ws mj2 hlen
      simp only [List.zipWith_cons_cons, normalSweep2, setRhsWoBias2,
        normal2_solve_woBias, ihh]

/-- A 3D normal sweep never reads any element's `rhs_wo_bias`. -/
theorem normalSweep3_woBias (dir1 : Vec3 K) (im2 : K)
    (es : List (VelocityGroundConstraintElement3 K)) :
    ∀ (ws : List K) (mj : DeltaVel3 K), ws.length = es.length →
      normalSweep3 dir1 im2 (List.zipWith setRhsWoBias3 es ws) mj =
        (List.zipWith setRhsWoBias3 (normalSweep3 dir1 im2 es mj).1 ws,
         (normalSweep3 dir1 im2 es mj).2) := by
  induction es with
  | nil =>
    intro ws mj h
    have hw : ws = [] := List.length_eq_zero.mp h
    subst hw
    rfl
  | cons e es ih =>
    intro ws mj h
    cases ws with
    | nil => simp at h
    | cons w ws =>
      have hlen : ws.length = es.length := by simpa using h
      have ihh := fun mj2 => ih ws mj2 hlen
      simp only [List.zipWith_cons_cons, normalSweep3, setRhsWoBias3,
        normal3_solve_woBias, ihh]

/-- A 2D friction sweep never reads (or alters) any element's
`rhs_wo_bias`. -/
theorem frictionSweep2_woBias (tangents1 : Vec2 K) (im2 limit : K)
    (es : List (VelocityGroundConstraintElement2 K)) :
    ∀ (ws : List K) (mj : DeltaVel2 K), ws.length = es.length →
      frictionSweep2 tangents1 im2 limit (List.zipWith setRhsWoBias2 es ws) mj =
        (List.zipWith setRhsWoBias2 (frictionSweep2 tangents1 im2 limit es mj).1 ws,
         (frictionSweep2 tangents1 im2 limit es mj).2) := by
  induction es with
  | nil =>
    intro ws mj h
    have hw : ws = [] := List.length_eq_zero.mp h
    subst hw
    rfl
  | cons e es ih =>
    intro ws mj h
    cases ws with
    | nil => simp at h
    | cons w ws =>
      have hlen : ws.length = es.length := by simpa using h
      have ihh := fun mj2 => ih ws mj2 hlen
      simp only [List.zipWith_cons_cons, frictionSweep2, setRhsWoBias2, ihh]

/-- A 3D friction sweep never reads (or alters) any element's
`rhs_wo_bias`. -/
theorem frictionSweep3_woBias (f : K → K) (tangents1_0 tangents1_1 : Vec3 K)
    (im2 limit : K) (es : List (VelocityGroundConstraintElement3 K)) :
    ∀ (ws : List K) (mj : DeltaVel3 K), ws.length = es.length →
      frictionSweep3 f tangents1_0 tangents1_1 im2 limit
          (List.zipWith setRhsWoBias3 es ws) mj =
        (List.zipWith setRhsWoBias3
          (frictionSweep3 f tangents1_0 tangents1_1 im2 limit es mj).1 ws,
         (frictionSweep3 f tangents1_0 tangents1_1 im2 limit es mj).2) := by
  induction es with
  | nil =>
    intro ws mj h
    have hw : ws = [] := List.length_eq_zero.mp h
    subst hw
    rfl
  | cons e es ih =>
    intro ws mj h
    cases ws with
    | nil => simp at h
    | cons w ws =>
      have hlen : ws.length = es.length := by simpa using h
      have ihh := fun mj2 => ih ws mj2 hlen
      simp only [List.zipWith_cons_cons, frictionSweep3, setRhsWoBias3, ihh]

/-- Claim C9: every solve mutates only impulses and the shared accumulator.
Conjuncts: the leaf solves keep `gcross2`, `rhs`, `rhs_wo_bias` and `r` (both
builds); `solve_group` keeps every element's frame fields; and `rhs_wo_bias`
is never read — overwriting it before a normal solve or a whole
`solve_group` call merely carries the overwritten values through, leaving
every computed impulse and the accumulator unchanged. -/
theorem solve_touches_only_impulses_and_accumulator :
    (∀ (s : VelocityGroundConstraintNormalPart2 K) (dir1 : Vec2 K) (im2 : K)
       (mj : DeltaVel2 K),
       (s.solve dir1 im2 mj).1.gcross2 = s.gcross2 ∧
       (s.solve dir1 im2 mj).1.rhs = s.rhs ∧
       (s.solve dir1 im2 mj).1.rhs_wo_bias = s.rhs_wo_bias ∧
       (s.solve dir1 im2 mj).1.r = s.r) ∧
    (∀ (s : VelocityGroundConstraintNormalPart3 K) (dir1 : Vec3 K) (im2 : K)
       (mj : DeltaVel3 K),
       (s.solve dir1 im2 mj).1.gcross2 = s.gcross2 ∧
       (s.solve dir1 im2 mj).1.rhs = s.rhs ∧
       (s.solve dir1 im2 mj).1.rhs_wo_bias = s.rhs_wo_bias ∧
       (s.solve dir1 im2 mj).1.r = s.r) ∧
    (∀ (s : VelocityGroundConstraintTangentPart2 K) (tangents1 : Vec2 K) (im2 limit : K)
       (mj : DeltaVel2 K),
       (s.solve tangents1 im2 limit mj).1.gcross2 = s.gcross2 ∧
       (s.solve tangents1 im2 limit mj).1.rhs = s.rhs ∧
       (s.solve tangents1 im2 limit mj).1.r = s.r) ∧
    (∀ (f : K → K) (s : VelocityGroundConstraintTangentPart3 K)
       (tangents1_0 tangents1_1 : Vec3 K) (im2 limit : K) (mj : DeltaVel3 K),
       (VelocityGroundConstraintTangentPart3.solve f s tangents1_0 tangents1_1
           im2 limit mj).1.gcross2_0 = s.gcross2_0 ∧
       (VelocityGroundConstraintTangentPart3.solve f s tangents1_0 tangents1_1
           im2 limit mj).1.gcross2_1 = s.gcross2_1 ∧
       (VelocityGroundConstraintTangentPart3.solve f s tangents1_0 tangents1_1
           im2 limit mj).1.rhs_0 = s.rhs_0 ∧
       (VelocityGroundConstraintTangentPart3.solve f s tangents1_0 tangents1_1
           im2 limit mj).1.rhs_1 = s.rhs_1 ∧
       (VelocityGroundConstraintTangentPart3.solve f s tangents1_0 tangents1_1
           im2 limit mj).1.r_0 = s.r_0 ∧
       (VelocityGroundConstraintTangentPart3.solve f s tangents1_0 tangents1_1
           im2 limit mj).1.r_1 = s.r_1) ∧
    (∀ (es : List (VelocityGroundConstraintElement2 K)) (dir1 : Vec2 K) (im2 limit : K)
       (mj : DeltaVel2 K) (sn sf : Bool),
       (VelocityGroundConstraintElement2.solve_group es dir1 im2 limit mj sn sf).1.map
           frameFields2 = es.map frameFields2) ∧
    (∀ (f : K → K) (es : List (VelocityGroundConstraintElement3 K)) (dir1 tangent1 : Vec3 K)
       (im2 limit : K) (mj : DeltaVel3 K) (sn sf : Bool),
       (VelocityGroundConstraintElement3.solve_group f es dir1 tangent1 im2 limit mj
           sn sf).1.map frameFields3 = es.map frameFields3) ∧
    (∀ (s : VelocityGroundConstraintNormalPart2 K) (w : K) (dir1 : Vec2 K) (im2 : K)
       (mj : DeltaVel2 K),
       VelocityGroundConstraintNormalPart2.solve { s with rhs_wo_bias := w } dir1 im2 mj =
         ({ (s.solve dir1 im2 mj).1 with rhs_wo_bias := w }, (s.solve dir1 im2 mj).2)) ∧
    (∀ (s : VelocityGroundConstraintNormalPart3 K) (w : K) (dir1 : Vec3 K) (im2 : K)
       (mj : DeltaVel3 K),
       VelocityGroundConstraintNormalPart3.solve { s with rhs_wo_bias := w } dir1 im2 mj =
         ({ (s.solve dir1 im2 mj).1 with rhs_wo_bias := w }, (s.solve dir1 im2 mj).2)) ∧
    (∀ (es : List (VelocityGroundConstraintElement2 K)) (ws : List K) (dir1 : Vec2 K)
       (im2 limit : K) (mj : DeltaVel2 K) (sn sf : Bool), ws.length = es.length →
       VelocityGroundConstraintElement2.solve_group (List.zipWith setRhsWoBias2 es ws) dir1
           im2 limit mj sn sf =
         (List.zipWith setRhsWoBias2
           (VelocityGroundConstraintElement2.solve_group es dir1 im2 limit mj sn sf).1 ws,
          (VelocityGroundConstraintElement2.solve_group es dir1 im2 limit mj sn sf).2)) ∧
    (∀ (f : K → K) (es : List (VelocityGroundConstraintElement3 K)) (ws : List K)
       (dir1 tangent1 : Vec3 K) (im2 limit : K) (mj : DeltaVel3 K) (sn sf : Bool),
       ws.length = es.length →
       VelocityGroundConstraintElement3.solve_group f (List.zipWith setRhsWoBias3 es ws) dir1
           tangent1 im2 limit mj sn sf =
         (List.zipWith setRhsWoBias3
           (VelocityGroundConstraintElement3.solve_group f es dir1 tangent1 im2 limit mj
             sn sf).1 ws,
          (VelocityGroundConstraintElement3.solve_group f es dir1 tangent1 im2 limit mj
            sn sf).2)) := by
  refine ⟨?_, ?_, ?_, ?_, ?_, ?_, ?_, ?_, ?_, ?_⟩
  · exact fun s dir1 im2 mj => ⟨rfl, rfl, rfl, rfl⟩
  · exact fun s dir1 im2 mj => ⟨rfl, rfl, rfl, rfl⟩
  · exact fun s tangents1 im2 limit mj => ⟨rfl, rfl, rfl⟩
  · exact fun f s t0 t1 im2 limit mj => ⟨rfl, rfl, rfl, rfl, rfl, rfl⟩
  · intro es dir1 im2 limit mj sn sf
    cases sn <;> cases sf
    · rfl
    · exact frictionSweep2_map_frame dir1.orthonormal_vector im2 limit es mj
    · exact normalSweep2_map_frame dir1 im2 es mj
    · have hstage : VelocityGroundConstraintElement2.solve_group es dir1 im2 limit mj
          true true =
          frictionSweep2 dir1.orthonormal_vector im2 limit (normalSweep2 dir1 im2 es mj).1
            (normalSweep2 dir1 im2 es mj).2 := rfl
      rw [hstage, frictionSweep2_map_frame, normalSweep2_map_frame]
  · intro f es dir1 tangent1 im2 limit mj sn sf
    cases sn <;> cases sf
    · rfl
    · exact frictionSweep3_map_frame f tangent1 (dir1.cross tangent1) im2 limit es mj
    · exact normalSweep3_map_frame dir1 im2 es mj
    · have hstage : VelocityGroundConstraintElement3.solve_group f es dir1 tangent1 im2 limit
          mj true true =
          frictionSweep3 f tangent1 (dir1.cross tangent1) im2 limit
            (normalSweep3 dir1 im2 es mj).1 (normalSweep3 dir1 im2 es mj).2 := rfl
      rw [hstage, frictionSweep3_map_frame, normalSweep3_map_frame]
  · exact fun s w dir1 im2 mj => normal2_solve_woBias s w dir1 im2 mj
  · exact fun s w dir1 im2 mj => normal3_solve_woBias s w dir1 im2 mj
  · intro es ws dir1 im2 limit mj sn sf h
    cases sn <;> cases sf
    · rfl
    · exact frictionSweep2_woBias dir1.orthonormal_vector im2 limit es ws mj h
    · exact normalSweep2_woBias dir1 im2 es ws mj h
    · have h2 : ws.length = (normalSweep2 dir1 im2 es mj).1.length := by
        rw [normalSweep2_length]
        exact h
      have hstage : VelocityGroundConstraintElement2.solve_group
          (List.zipWith setRhsWoBias2 es ws) dir1 im2 limit mj true true =
          frictionSweep2 dir1.orthonormal_vector im2 limit
            (normalSweep2 dir1 im2 (List.zipWith setRhsWoBias2 es ws) mj).1
            (normalSweep2 dir1 im2 (List.zipWith setRhsWoBias2 es ws) mj).2 := rfl
      rw [hstage, normalSweep2_woBias dir1 im2 es ws mj h]
      dsimp only
      rw [frictionSweep2_woBias dir1.orthonormal_vector im2 limit
        (normalSweep2 dir1 im2 es mj).1 ws (normalSweep2 dir1 im2 es mj).2 h2]
      rfl
  · intro f es ws dir1 tangent1 im2 limit mj sn sf h
    cases sn <;> cases sf
    · rfl
    · exact frictionSweep3_woBias f tangent1 (dir1.cross tangent1) im2 limit es ws mj h
    · exact normalSweep3_woBias dir1 im2 es ws mj h
    · have h2 : ws.length = (normalSweep3 dir1 im2 es mj).1.length := by
        rw [normalSweep3_length]
        exact h
      have hstage : VelocityGroundConstraintElement3.solve_group f
          (List.zipWith setRhsWoBias3 es ws) dir1 tangent1 im2 limit mj true true =
          frictionSweep3 f tangent1 (dir1.cross tangent1) im2 limit
            (normalSweep3 dir1 im2 (List.zipWith setRhsWoBias3 es ws) mj).1
            (normalSweep3 dir1 im2 (List.zipWith setRhsWoBias3 es ws) mj).2 := rfl
      rw [hstage, normalSweep3_woBias dir1 im2 es ws mj h]
      dsimp only
      rw [frictionSweep3_woBias f tangent1 (dir1.cross tangent1) im2 limit
        (normalSweep3 dir1 im2 es mj).1 ws (normalSweep3 dir1 im2 es mj).2 h2]
      rfl

/-- Claim C9 witness: overwriting the single element's `rhs_wo_bias` with `5`
before a full 2D `solve_group` call carries the `5` through unchanged and
alters nothing else. -/
theorem solve_touches_only_impulses_and_accumulator_witness :
    VelocityGroundConstraintElement2.solve_group
      (List.zipWith setRhsWoBias2 [VelocityGroundConstraintElement2.zero] [5]) ⟨0, 1⟩ 1 1
      (⟨⟨0, 0⟩, 0⟩ : DeltaVel2 ℚ) true true =
      (List.zipWith setRhsWoBias2
        (VelocityGroundConstraintElement2.solve_group [VelocityGroundConstraintElement2.zero]
          ⟨0, 1⟩ 1 1 (⟨⟨0, 0⟩, 0⟩ : DeltaVel2 ℚ) true true).1 [5],
       (VelocityGroundConstraintElement2.solve_group [VelocityGroundConstraintElement2.zero]
         ⟨0, 1⟩ 1 1 (⟨⟨0, 0⟩, 0⟩ : DeltaVel2 ℚ) true true).2) :=
  solve_touches_only_impulses_and_accumulator.2.2.2.2.2.2.2.2.1 _ _ _ _ _ _ true true rfl

end Rapier
